import Mathlib

/-!
# Optiscroll: scrollbar geometry and instance state

A shallow embedding of `dist/optiscroll.js` (v1.0.1).

Numbers are exact rationals: the DOM hands the code integral pixel sizes and
offsets, and every quotient the code forms from them is a rational.  Where a
property turns on the rounding of those quotients, `Scrollbar.calc` is also
given operation by operation in binary64 (`Scrollbar.calc64`).  A JavaScript
value that may be `undefined` or `NaN` is a `Val`.

The presentation layer (creation and styling of the track elements, CSS
classes, listener wiring) carries no state that the functions below read and
is left out, as is the polling timer.
-/

namespace Optiscroll

/-! ## JavaScript values -/

/-- A JavaScript value that is `undefined`, `NaN` or a finite number. -/
inductive Val where
  | undef
  | nan
  | num (q : ℚ)
  deriving DecidableEq

namespace Val

/-- Unary plus: `undefined` becomes `NaN`. -/
def toNumber : Val → Val
  | undef => nan
  | nan => nan
  | num q => num q

/-- Subtraction `a - b`. -/
def sub : Val → Val → Val
  | num a, num b => num (a - b)
  | _, _ => nan

/-- Addition `a + b` of numeric operands. -/
def add : Val → Val → Val
  | num a, num b => num (a + b)
  | _, _ => nan

/-- Multiplication `a * b`. -/
def mul : Val → Val → Val
  | num a, num b => num (a * b)
  | _, _ => nan

/-- Strict equality `a === b`: `NaN` equals nothing. -/
def strictEq : Val → Val → Bool
  | undef, undef => true
  | num a, num b => decide (a = b)
  | _, _ => false

/-- Strict inequality `a !== b`. -/
def strictNe (a b : Val) : Bool := !(strictEq a b)

/-- Comparison `a < b`: false when either side is not a number. -/
def lt : Val → Val → Bool
  | num a, num b => decide (a < b)
  | _, _ => false

/-- Comparison `a > b`. -/
def gt (a b : Val) : Bool := lt b a

/-- Truthiness of a value used as a condition. -/
def truthy : Val → Bool
  | num q => decide (q ≠ 0)
  | _ => false

/-- The idiom `v || 0` on a numeric option. -/
def orZero : Val → ℚ
  | num q => q
  | _ => 0

/-- The idiom `isNaN(v)`. -/
def isNaN : Val → Bool
  | num _ => false
  | _ => true

end Val

/-- Truncation toward zero of a rational. -/
def trunc (q : ℚ) : ℤ := Int.tdiv q.num q.den

/-- The remainder operator `x % y` on finite numbers, `y` nonzero: the result
takes the sign of the dividend. -/
def jsMod (x y : ℚ) : ℚ := x - y * (trunc (x / y) : ℚ)

/-- The test `percent % 100 === 0`. -/
def modHundredIsZero : Val → Bool
  | Val.num p => decide (jsMod p 100 = 0)
  | _ => false

/-! ## Geometry: `Scrollbar.calc` -/

/-- The object `{position, size, percent}` returned by `calc`. -/
structure Dim where
  position : ℚ
  size : ℚ
  percent : ℚ
  deriving DecidableEq

/-- The maximum-track-size step of `calc` (lines 591-594). -/
def clampMax (maxTrackR percent : ℚ) (ps : ℚ × ℚ) : ℚ × ℚ :=
  if ps.2 > maxTrackR then (ps.1 + (ps.2 - maxTrackR) * (percent / 100), maxTrackR) else ps

/-- The minimum-track-size step of `calc` (lines 596-599). -/
def clampMin (minTrackR percent : ℚ) (ps : ℚ × ℚ) : ℚ × ℚ :=
  if ps.2 < minTrackR then (ps.1 + (ps.2 - minTrackR) * (percent / 100), minTrackR) else ps

/-- The two overscroll steps of `calc` (lines 601-607), on `positionRatio`. -/
def overscroll (percent sizeRatio positionRatio : ℚ) : ℚ :=
  let positionRatio := if percent < 0 then 0 else positionRatio
  if percent > 100 then 1 - sizeRatio else positionRatio

/-- The function `Scrollbar.calc(position, viewSize, scrollSize, min, max)` on
numeric arguments.  The early return covers every case in which a divisor
below would be zero. -/
def Scrollbar.calc (position viewSize scrollSize min max : ℚ) : Dim :=
  let minTrackR := min / 100
  let maxTrackR := max / 100
  let sizeRatio := viewSize / scrollSize
  if sizeRatio = 1 ∨ scrollSize = 0 then
    { position := 0, size := 1, percent := 0 }
  else
    let positionRatio := position / scrollSize
    let percent := 100 * position / (scrollSize - viewSize)
    let ps := clampMin minTrackR percent (clampMax maxTrackR percent (positionRatio, sizeRatio))
    { position := overscroll percent ps.2 ps.1, size := ps.2, percent := percent }

/-- The object `calc` returns when a cached size it was given is not yet a
number: its fields may be `NaN`. -/
structure DimV where
  position : Val
  size : Val
  percent : Val
  deriving DecidableEq

/-- The call `this.calc(scrollEl[scrollProp], cache[clientSize], cache[scrollSize],
trackMin, trackMax)` as `update` makes it: the two cached sizes may still be
`undefined`.  With a non-numeric `viewSize`, `sizeRatio` and `percent` are
`NaN` and every comparison with them is false; with a non-numeric
`scrollSize` all three results are `NaN`. -/
def Scrollbar.calcV (position : ℚ) (viewSize scrollSize : Val) (min max : ℚ) : DimV :=
  match viewSize, scrollSize with
  | Val.num c, Val.num s =>
    let d := Scrollbar.calc position c s min max
    { position := Val.num d.position, size := Val.num d.size, percent := Val.num d.percent }
  | _, Val.num s =>
    if s = 0 then { position := Val.num 0, size := Val.num 1, percent := Val.num 0 }
    else { position := Val.num (position / s), size := Val.nan, percent := Val.nan }
  | _, _ => { position := Val.nan, size := Val.nan, percent := Val.nan }

/-! ## Geometry in IEEE doubles -/

/-- The power `2 ^ k` for an integer exponent. -/
def pow2 : ℤ → ℚ
  | Int.ofNat n => ((2 ^ n : ℕ) : ℚ)
  | Int.negSucc n => mkRat 1 (2 ^ (n + 1))

/-- Rounding of a nonnegative rational to the nearest integer, a tie going to
the even neighbour. -/
def roundHalfEven (q : ℚ) : ℤ :=
  let f := Rat.floor q
  let r := q - (f : ℚ)
  if r < 1 / 2 then f else if 1 / 2 < r then f + 1 else if f % 2 = 0 then f else f + 1

/-- The binary logarithm of a natural number, rounded down (0 for 0), by
halving at most `fuel` times. -/
def log2Nat : ℕ → ℕ → ℕ
  | 0, _ => 0
  | fuel + 1, n => if n < 2 then 0 else log2Nat fuel (n / 2) + 1

/-- The exponent `k` with `2 ^ k <= a < 2 ^ (k + 1)`, for positive `a`. -/
def log2Floor (a : ℚ) : ℤ :=
  let k : ℤ := (log2Nat a.num.natAbs a.num.natAbs : ℤ) - (log2Nat a.den a.den : ℤ)
  if a < pow2 k then k - 1 else k

/-- A JavaScript number as a binary64 value: finite, an infinity or `NaN`.
The two zeros are not told apart; `calc` never divides by a zero whose sign
would show. -/
inductive F64 where
  | fin (q : ℚ)
  | pinf
  | ninf
  | nan
  deriving DecidableEq

namespace F64

/-- Rounding of an exact result to binary64, round-to-nearest, ties-to-even:
53 significant bits, gradual underflow below `2 ^ -1022`, overflow to an
infinity from `2 ^ 1024` on. -/
def round (q : ℚ) : F64 :=
  if q = 0 then fin 0
  else
    let e := max (log2Floor |q| - 52) (-1074)
    let r := (roundHalfEven (|q| / pow2 e) : ℚ) * pow2 e
    if pow2 1024 ≤ r then (if q < 0 then ninf else pinf)
    else fin (if q < 0 then -r else r)

/-- Subtraction `a - b` of doubles. -/
def sub : F64 → F64 → F64
  | fin a, fin b => round (a - b)
  | fin _, pinf => ninf
  | fin _, ninf => pinf
  | pinf, fin _ => pinf
  | pinf, ninf => pinf
  | ninf, fin _ => ninf
  | ninf, pinf => ninf
  | _, _ => nan

/-- Addition `a + b` of doubles. -/
def add : F64 → F64 → F64
  | fin a, fin b => round (a + b)
  | fin _, pinf => pinf
  | fin _, ninf => ninf
  | pinf, fin _ => pinf
  | pinf, pinf => pinf
  | ninf, fin _ => ninf
  | ninf, ninf => ninf
  | _, _ => nan

/-- The sign rule of a product or quotient with an infinite result. -/
def signedInf (negative : Bool) : F64 := if negative then ninf else pinf

/-- Multiplication `a * b` of doubles. -/
def mul : F64 → F64 → F64
  | fin a, fin b => round (a * b)
  | fin a, pinf => if a = 0 then nan else signedInf (decide (a < 0))
  | fin a, ninf => if a = 0 then nan else signedInf (decide (0 < a))
  | pinf, fin b => if b = 0 then nan else signedInf (decide (b < 0))
  | ninf, fin b => if b = 0 then nan else signedInf (decide (0 < b))
  | pinf, pinf => pinf
  | ninf, ninf => pinf
  | pinf, ninf => ninf
  | ninf, pinf => ninf
  | _, _ => nan

/-- Division `a / b` of doubles. -/
def div : F64 → F64 → F64
  | fin a, fin b =>
    if b = 0 then (if a = 0 then nan else signedInf (decide (a < 0)))
    else round (a / b)
  | fin _, pinf => fin 0
  | fin _, ninf => fin 0
  | pinf, fin b => signedInf (decide (b < 0))
  | ninf, fin b => signedInf (decide (0 ≤ b))
  | _, _ => nan

/-- Comparison `a < b` of doubles: false when either side is `NaN`. -/
def lt : F64 → F64 → Bool
  | fin a, fin b => decide (a < b)
  | fin _, pinf => true
  | ninf, fin _ => true
  | ninf, pinf => true
  | _, _ => false

/-- Comparison `a > b` of doubles. -/
def gt (a b : F64) : Bool := lt b a

/-- Strict equality `a === b` of doubles. -/
def strictEq : F64 → F64 → Bool
  | fin a, fin b => decide (a = b)
  | pinf, pinf => true
  | ninf, ninf => true
  | _, _ => false

end F64

/-- The object `{position, size, percent}` as the doubles `calc` returns. -/
structure Dim64 where
  position : F64
  size : F64
  percent : F64
  deriving DecidableEq

/-- The maximum-track-size step of `calc` (lines 591-594) in doubles. -/
def clampMax64 (maxTrackR percent : F64) (ps : F64 × F64) : F64 × F64 :=
  if ps.2.gt maxTrackR then
    (ps.1.add ((ps.2.sub maxTrackR).mul (percent.div (F64.fin 100))), maxTrackR)
  else ps

/-- The minimum-track-size step of `calc` (lines 596-599) in doubles. -/
def clampMin64 (minTrackR percent : F64) (ps : F64 × F64) : F64 × F64 :=
  if ps.2.lt minTrackR then
    (ps.1.add ((ps.2.sub minTrackR).mul (percent.div (F64.fin 100))), minTrackR)
  else ps

/-- The two overscroll steps of `calc` (lines 601-607) in doubles. -/
def overscroll64 (percent sizeRatio positionRatio : F64) : F64 :=
  let positionRatio := if percent.lt (F64.fin 0) then F64.fin 0 else positionRatio
  if percent.gt (F64.fin 100) then (F64.fin 1).sub sizeRatio else positionRatio

/-- The function `Scrollbar.calc(position, viewSize, scrollSize, min, max)` as
the code computes it: every arithmetic operation of lines 578-606 is the
binary64 operation.  The arguments are the numbers passed in, taken to be
doubles themselves. -/
def Scrollbar.calc64 (position viewSize scrollSize min max : ℚ) : Dim64 :=
  let minTrackR := (F64.fin min).div (F64.fin 100)
  let maxTrackR := (F64.fin max).div (F64.fin 100)
  let sizeRatio := (F64.fin viewSize).div (F64.fin scrollSize)
  if sizeRatio.strictEq (F64.fin 1) || decide (scrollSize = 0) then
    { position := F64.fin 0, size := F64.fin 1, percent := F64.fin 0 }
  else
    let positionRatio := (F64.fin position).div (F64.fin scrollSize)
    let percent := ((F64.fin 100).mul (F64.fin position)).div
      ((F64.fin scrollSize).sub (F64.fin viewSize))
    let ps := clampMin64 minTrackR percent (clampMax64 maxTrackR percent (positionRatio, sizeRatio))
    { position := overscroll64 percent ps.2 ps.1, size := ps.2, percent := percent }

/-! ## Instance state -/

/-- The two scroll axes, the `which` argument of `Scrollbar`. -/
inductive Axis where
  | v
  | h
  deriving DecidableEq

/-- The settings the modelled functions read. -/
structure Settings where
  preventParentScroll : Bool
  minTrackSize : ℚ
  maxTrackSize : ℚ
  autoUpdate : Bool
  deriving DecidableEq

/-- Defaults of `Optiscroll.defaults`. -/
def defaults : Settings :=
  { preventParentScroll := false, minTrackSize := 5, maxTrackSize := 95, autoUpdate := true }

/-- The value `settings.minTrackSize || 0`. -/
def Settings.trackMin (s : Settings) : ℚ :=
  if s.minTrackSize = 0 then 0 else s.minTrackSize

/-- The value `settings.maxTrackSize || 100`. -/
def Settings.trackMax (s : Settings) : ℚ :=
  if s.maxTrackSize = 0 then 100 else s.maxTrackSize

/-- The per-axis object `cache.v` / `cache.h` (`scrollbarCache`). -/
structure ScrollbarCache where
  position : Val
  size : Val
  percent : Val
  was : Val
  enabled : Option Bool
  deriving DecidableEq

/-- The empty object a `Scrollbar` starts with. -/
def ScrollbarCache.empty : ScrollbarCache :=
  { position := Val.undef, size := Val.undef, percent := Val.undef, was := Val.undef,
    enabled := none }

/-- The instance cache `me.cache`. -/
structure Cache where
  scrollH : Val
  clientH : Val
  scrollW : Val
  clientW : Val
  v : ScrollbarCache
  h : ScrollbarCache
  deriving DecidableEq

/-- The properties of `scrollEl` the code reads and writes. -/
structure ScrollEl where
  scrollTop : ℚ
  scrollLeft : ℚ
  scrollHeight : ℚ
  clientHeight : ℚ
  scrollWidth : ℚ
  clientWidth : ℚ
  deriving DecidableEq

/-- The payload of a notification, built by `Utils.exposedData`. -/
structure ExposedData where
  scrollbarV : ScrollbarCache
  scrollbarH : ScrollbarCache
  scrollTop : Val
  scrollLeft : Val
  scrollBottom : Val
  scrollRight : Val
  scrollWidth : Val
  scrollHeight : Val
  clientWidth : Val
  clientHeight : Val
  deriving DecidableEq

/-- A dispatched `CustomEvent`. -/
structure Event where
  name : String
  detail : ExposedData
  deriving DecidableEq

/-- One `Optiscroll.Instance`, with the closure variable `enabled` of each of
its two scrollbars. -/
structure Instance where
  id : Nat
  settings : Settings
  cache : Cache
  scrollEl : ScrollEl
  attached : Bool
  enabledV : Bool
  enabledH : Bool
  disableScrollEv : Bool
  bound : Bool
  dispatched : List Event
  deriving DecidableEq

/-- The arguments a `scrollAnimation` closure captures. -/
structure AnimationRequest where
  id : Nat
  startX : ℚ
  endX : Val
  startY : ℚ
  endY : Val
  startTime : ℚ
  duration : Val
  deriving DecidableEq

/-- A callback handed to `animationTimeout`. -/
inductive Frame where
  | spliceInstance (index : Nat)
  | restoreScrollEv (id : Nat)
  | scrollAnimation (a : AnimationRequest)
  deriving DecidableEq

/-- The instance `me` a method runs on, the globals `G.instances` (by instance
id) and `G.pauseCheck`, the clock `Date.now()` and the callbacks waiting for
the next animation frame, oldest first. -/
structure World where
  me : Instance
  instances : List Nat
  pauseCheck : Bool
  now : ℚ
  frames : List Frame
  deriving DecidableEq

/-- The state of an instance when its constructor has run and `init` has
created the two scrollbars, before the first `update`. -/
def Instance.fresh (id : Nat) (settings : Settings) (el : ScrollEl) : Instance :=
  { id := id, settings := settings,
    cache := { scrollH := Val.undef, clientH := Val.undef, scrollW := Val.undef,
               clientW := Val.undef, v := ScrollbarCache.empty, h := ScrollbarCache.empty },
    scrollEl := el, attached := true, enabledV := false, enabledH := false,
    disableScrollEv := false, bound := false, dispatched := [] }

/-! ## Accessors keyed by axis -/

/-- The object `cache[which]`. -/
def Cache.bar (c : Cache) : Axis → ScrollbarCache
  | Axis.v => c.v
  | Axis.h => c.h

/-- Replacement of `cache[which]`. -/
def Cache.setBar (c : Cache) (a : Axis) (b : ScrollbarCache) : Cache :=
  match a with
  | Axis.v => { c with v := b }
  | Axis.h => { c with h := b }

/-- The value `cache[clientSize]`. -/
def Cache.clientSize (c : Cache) : Axis → Val
  | Axis.v => c.clientH
  | Axis.h => c.clientW

/-- The value `cache[scrollSize]`. -/
def Cache.scrollSize (c : Cache) : Axis → Val
  | Axis.v => c.scrollH
  | Axis.h => c.scrollW

/-- The value `scrollEl[scrollProp]`. -/
def ScrollEl.scrollProp (el : ScrollEl) : Axis → ℚ
  | Axis.v => el.scrollTop
  | Axis.h => el.scrollLeft

/-- The closure variable `enabled` of the scrollbar of an axis. -/
def Instance.enabled (i : Instance) : Axis → Bool
  | Axis.v => i.enabledV
  | Axis.h => i.enabledH

/-- The array `evNames`. -/
def evNames : Axis → String × String
  | Axis.v => ("top", "bottom")
  | Axis.h => ("left", "right")

/-- The string `'scrollreach' + evNames[percent/100]`: an index other than 0
or 1 reads `undefined`. -/
def reachName (a : Axis) (percent : Val) : String :=
  match percent with
  | Val.num p =>
    if p / 100 = 0 then "scrollreach" ++ (evNames a).1
    else if p / 100 = 1 then "scrollreach" ++ (evNames a).2
    else "scrollreachundefined"
  | _ => "scrollreachundefined"

/-- The number a write to `scrollTop` / `scrollLeft` stores: the value written,
and 0 for `NaN`.  The clamping and rounding a browser applies to a written
offset are not part of the source. -/
def storeOffset : Val → ℚ
  | Val.num q => q
  | _ => 0

/-! ## `Utils` -/

/-- The function `Utils.exposedData(obj)`. -/
def Utils.exposedData (obj : Cache) : ExposedData :=
  let sH := obj.scrollH
  let sW := obj.scrollW
  { scrollbarV := obj.v
    scrollbarH := obj.h
    scrollTop := obj.v.position.mul sH
    scrollLeft := obj.h.position.mul sW
    scrollBottom := (((Val.num 1).sub obj.v.position).sub obj.v.size).mul sH
    scrollRight := (((Val.num 1).sub obj.h.position).sub obj.h.size).mul sW
    scrollWidth := sW
    scrollHeight := sH
    clientWidth := obj.clientW
    clientHeight := obj.clientH }

/-- The function `Utils.easingFunction(t)`: `(--t) * t * t + 1` with `t`
already decremented in all three factors. -/
def Utils.easingFunction (t : ℚ) : ℚ :=
  let t := t - 1
  t * t * t + 1

/-! ## `Scrollbar` -/

/-- A destination argument of `scrollTo`: a number, one of the four keywords,
or `false`. -/
inductive Dest where
  | val (x : Val)
  | left
  | right
  | top
  | bottom
  | no
  deriving DecidableEq

/-- Unary plus on a destination: a keyword is `NaN`, `false` is 0. -/
def Dest.toNumber : Dest → Val
  | Dest.val x => x.toNumber
  | Dest.no => Val.num 0
  | _ => Val.nan

/-- The method `fireCustomEvent(eventName)`: the event is dispatched on the
element with the exposed cache as its detail. -/
def Instance.fireCustomEvent (w : World) (eventName : String) : World :=
  { w with me := { w.me with
      dispatched := w.me.dispatched ++ [{ name := eventName, detail := Utils.exposedData w.me.cache }] } }

/-- The method `toggle(bool)` of the scrollbar of axis `a`. -/
def Scrollbar.toggle (a : Axis) (bool : Bool) (w : World) : World :=
  let cache := w.me.cache.setBar a { w.me.cache.bar a with enabled := some bool }
  match a with
  | Axis.v => { w with me := { w.me with enabledV := bool, cache := cache } }
  | Axis.h => { w with me := { w.me with enabledH := bool, cache := cache } }

/-- The type of the method `instance.scrollTo(destX, destY, duration, disableEvents)`. -/
abbrev ScrollTo := World → Dest → Dest → Val → Bool → World

/-- The method `checkEdges(isOnTouch)` of the scrollbar of axis `a`; `scrollTo`
is `instance.scrollTo`. -/
def Scrollbar.checkEdges (scrollTo : ScrollTo) (a : Axis) (isOnTouch : Bool) (w : World) : World :=
  let percent := (w.me.cache.bar a).percent
  if !w.me.enabled a then w
  else
    let w :=
      if (w.me.cache.bar a).was.strictNe percent && modHundredIsZero percent && !isOnTouch then
        Instance.fireCustomEvent (Instance.fireCustomEvent w "scrollreachedge") (reachName a percent)
      else w
    let w :=
      if modHundredIsZero percent && isOnTouch && w.me.settings.preventParentScroll then
        let scrollFixPosition :=
          if percent.truthy then
            ((w.me.cache.bar a).position.mul (w.me.cache.scrollSize a)).sub (Val.num 1)
          else Val.num 1
        match a with
        | Axis.v => scrollTo w Dest.no (Dest.val scrollFixPosition) (Val.num 0) true
        | Axis.h => scrollTo w (Dest.val scrollFixPosition) Dest.no (Val.num 0) true
      else w
    { w with me := { w.me with
        cache := w.me.cache.setBar a { w.me.cache.bar a with was := percent } } }

/-- The method `update(isOnTouch)` of the scrollbar of axis `a`; `scrollTo` is
`instance.scrollTo`.  The styling of the track element between the two
toggles and the cache write is presentation and omitted. -/
def Scrollbar.updateWith (scrollTo : ScrollTo) (a : Axis) (isOnTouch : Bool) (w : World) : World :=
  let trackMin := w.me.settings.trackMin
  let trackMax := w.me.settings.trackMax
  let newDim := Scrollbar.calcV (w.me.scrollEl.scrollProp a) (w.me.cache.clientSize a)
    (w.me.cache.scrollSize a) trackMin trackMax
  let w := if newDim.size.strictEq (Val.num 1) && w.me.enabled a then Scrollbar.toggle a false w else w
  let w := if newDim.size.lt (Val.num 1) && !w.me.enabled a then Scrollbar.toggle a true w else w
  let w := { w with me := { w.me with
    cache := w.me.cache.setBar a { w.me.cache.bar a with
      position := newDim.position, size := newDim.size, percent := newDim.percent } } }
  Scrollbar.checkEdges scrollTo a isOnTouch w

/-- The index `G.instances.indexOf(me)`, `none` for -1. -/
def indexOf (xs : List Nat) (x : Nat) : Option Nat :=
  match xs with
  | [] => none
  | y :: ys => if y = x then some 0 else (indexOf ys x).map Nat.succ

/-! ## `Optiscroll.Instance` -/

/-- The method `destroy()`: listeners are removed, each scrollbar is removed
(which toggles it off), and the removal from `G.instances` is deferred to the
next frame with the index found now. -/
def Instance.destroy (w : World) : World :=
  let index := indexOf w.instances w.me.id
  let w := { w with me := { w.me with bound := false } }
  let w := Scrollbar.toggle Axis.h false (Scrollbar.toggle Axis.v false w)
  match index with
  | some i => { w with frames := w.frames ++ [Frame.spliceInstance i] }
  | none => w

/-- The call `_invoke(me.scrollbars, 'update')`: `update` of `v`, then of `h`,
without an argument, so that `isOnTouch` is false there and `checkEdges` does
not reach its `scrollTo` call: the callback given here is never applied. -/
def Instance.invokeUpdate (w : World) : World :=
  Scrollbar.updateWith (fun w _ _ _ _ => w) Axis.h false
    (Scrollbar.updateWith (fun w _ _ _ _ => w) Axis.v false w)

/-- The test at lines 172-173 of `update`: a freshly read dimension differs
from the cached one. -/
def Instance.sizesChanged (w : World) : Bool :=
  (Val.num w.me.scrollEl.scrollHeight).strictNe w.me.cache.scrollH ||
    (Val.num w.me.scrollEl.clientHeight).strictNe w.me.cache.clientH ||
    (Val.num w.me.scrollEl.scrollWidth).strictNe w.me.cache.scrollW ||
    (Val.num w.me.scrollEl.clientWidth).strictNe w.me.cache.clientW

/-- Lines 181-184 of `update`: the four dimensions are cached. -/
def Instance.storeSizes (w : World) : World :=
  { w with me := { w.me with cache := { w.me.cache with
      scrollH := Val.num w.me.scrollEl.scrollHeight
      clientH := Val.num w.me.scrollEl.clientHeight
      scrollW := Val.num w.me.scrollEl.scrollWidth
      clientW := Val.num w.me.scrollEl.clientWidth } } }

/-- Lines 181-193 of `update`: the dimensions are cached, `sizechange` fires
if the cache was defined before, and the scrollbars are updated. -/
def Instance.refresh (w : World) : World :=
  let oldcH := w.me.cache.clientH
  let w := Instance.storeSizes w
  let w := if oldcH ≠ Val.undef then Instance.fireCustomEvent w "sizechange" else w
  Instance.invokeUpdate w

/-- The method `update()`. -/
def Instance.update (w : World) : World :=
  if Instance.sizesChanged w then
    if w.me.scrollEl.scrollHeight = 0 ∧ w.me.scrollEl.clientHeight = 0 ∧ w.me.attached = false then
      Instance.destroy w
    else
      Instance.refresh w
  else w

/-- The duration `animateScroll` derives when none is given; `pow054 x` is
`Math.pow(x, 0.54)`. -/
def autoDuration (pow054 : ℚ → ℚ) (startX : ℚ) (endX : Val) (startY : ℚ) (endY : Val) : Val :=
  match endX, endY with
  | Val.num ex, Val.num ey => Val.num (pow054 (max |ex - startX| |ey - startY|) * 15)
  | _, _ => Val.nan

/-- The method `animateScroll(startX, endX, startY, endY, duration)`. -/
def Instance.animateScroll (pow054 : ℚ → ℚ) (w : World) (startX : ℚ) (endX : Val) (startY : ℚ)
    (endY : Val) (duration : Val) : World :=
  let startTime := w.now
  if endX.strictEq (Val.num startX) && endY.strictEq (Val.num startY) then w
  else if duration.strictEq (Val.num 0) then
    { w with
      me := { w.me with scrollEl := { w.me.scrollEl with
        scrollLeft := storeOffset endX, scrollTop := storeOffset endY } }
      frames := w.frames ++ [Frame.restoreScrollEv w.me.id] }
  else
    let duration := if duration.isNaN then autoDuration pow054 startX endX startY endY else duration
    { w with frames := w.frames ++ [Frame.scrollAnimation
        { id := w.me.id, startX := startX, endX := endX, startY := startY, endY := endY,
          startTime := startTime, duration := duration }] }

/-- The offsets `scrollTo` resolves and passes to `animateScroll`, read in the
world left by the forced update. -/
structure Targets where
  startX : ℚ
  endX : Val
  startY : ℚ
  endY : Val
  deriving DecidableEq

/-- Lines 215-226 of `scrollTo`. -/
def Instance.scrollToTargets (w : World) (destX destY : Dest) : Targets :=
  let cache := w.me.cache
  let startX := w.me.scrollEl.scrollLeft
  let startY := w.me.scrollEl.scrollTop
  let endX := destX.toNumber
  let endX := if destX = Dest.left then Val.num 0 else endX
  let endX := if destX = Dest.right then cache.scrollW.sub cache.clientW else endX
  let endX := if destX = Dest.no then Val.num startX else endX
  let endY := destY.toNumber
  let endY := if destY = Dest.top then Val.num 0 else endY
  let endY := if destY = Dest.bottom then cache.scrollH.sub cache.clientH else endY
  let endY := if destY = Dest.no then Val.num startY else endY
  { startX := startX, endX := endX, startY := startY, endY := endY }

/-- The method `scrollTo(destX, destY, duration, disableEvents)`. -/
def Instance.scrollTo (pow054 : ℚ → ℚ) : ScrollTo := fun w destX destY duration disableEvents =>
  let w := { w with pauseCheck := true }
  let w := Instance.update w
  let t := Instance.scrollToTargets w destX destY
  let w := { w with me := { w.me with disableScrollEv := disableEvents } }
  Instance.animateScroll pow054 w t.startX t.endX t.startY t.endY duration.toNumber

/-- The method `update(isOnTouch)` of the scrollbar of axis `a`. -/
def Scrollbar.update (pow054 : ℚ → ℚ) (a : Axis) (isOnTouch : Bool) (w : World) : World :=
  Scrollbar.updateWith (Instance.scrollTo pow054) a isOnTouch w

/-- The result of `getBoundingClientRect()`, as far as it is read. -/
structure Rect where
  left : ℚ
  top : ℚ
  width : ℚ
  height : ℚ
  deriving DecidableEq

/-- The `delta` argument of `scrollIntoView`: a number, an object with
optional per-edge margins, or nothing. -/
inductive Delta where
  | num (d : ℚ)
  | obj (top right bottom left : Val)
  | none
  deriving DecidableEq

/-- The margin `delta.top || 0` after lines 253-257. -/
def Delta.top : Delta → ℚ
  | Delta.num d => d
  | Delta.obj t _ _ _ => t.orZero
  | Delta.none => 0

/-- The margin `delta.right || 0`. -/
def Delta.right : Delta → ℚ
  | Delta.num d => d
  | Delta.obj _ r _ _ => r.orZero
  | Delta.none => 0

/-- The margin `delta.bottom || 0`. -/
def Delta.bottom : Delta → ℚ
  | Delta.num d => d
  | Delta.obj _ _ b _ => b.orZero
  | Delta.none => 0

/-- The margin `delta.left || 0`. -/
def Delta.left : Delta → ℚ
  | Delta.num d => d
  | Delta.obj _ _ _ l => l.orZero
  | Delta.none => 0

/-- The four edges computed at lines 263-266. -/
structure Edges where
  leftEdge : ℚ
  topEdge : ℚ
  rightEdge : Val
  bottomEdge : Val
  deriving DecidableEq

/-- Lines 261-266 of `scrollIntoView`; `eDim` and `sDim` are the bounding
rectangles of the target and of `scrollEl`. -/
def Instance.scrollIntoViewEdges (w : World) (eDim sDim : Rect) (delta : Delta) : Edges :=
  let startX := w.me.scrollEl.scrollLeft
  let startY := w.me.scrollEl.scrollTop
  { leftEdge := startX + eDim.left - sDim.left - delta.left
    topEdge := startY + eDim.top - sDim.top - delta.top
    rightEdge := ((Val.num (startX + eDim.left - sDim.left + eDim.width)).sub w.me.cache.clientW).add
      (Val.num delta.right)
    bottomEdge := ((Val.num (startY + eDim.top - sDim.top + eDim.height)).sub w.me.cache.clientH).add
      (Val.num delta.bottom) }

/-- Lines 261-272 of `scrollIntoView`: the offsets passed to `animateScroll`. -/
def Instance.scrollIntoViewTargets (w : World) (eDim sDim : Rect) (delta : Delta) : Targets :=
  let e := Instance.scrollIntoViewEdges w eDim sDim delta
  let startX := w.me.scrollEl.scrollLeft
  let startY := w.me.scrollEl.scrollTop
  let endX := Val.num startX
  let endY := Val.num startY
  let endX := if e.leftEdge < startX then Val.num e.leftEdge else endX
  let endX := if e.rightEdge.gt (Val.num startX) then e.rightEdge else endX
  let endY := if e.topEdge < startY then Val.num e.topEdge else endY
  let endY := if e.bottomEdge.gt (Val.num startY) then e.bottomEdge else endY
  { startX := startX, endX := endX, startY := startY, endY := endY }

/-- The method `scrollIntoView(elem, duration, delta)` for a target that
resolves to an element with bounding rectangle `eDim`. -/
def Instance.scrollIntoView (pow054 : ℚ → ℚ) (w : World) (eDim sDim : Rect) (duration : Val)
    (delta : Delta) : World :=
  let w := { w with pauseCheck := true }
  let w := Instance.update w
  let t := Instance.scrollIntoViewTargets w eDim sDim delta
  Instance.animateScroll pow054 w t.startX t.endX t.startY t.endY duration.toNumber

/-! ## Animation frames -/

/-- The value `Math.min(1, (Date.now() - startTime) / duration)`.  A zero
duration does not arrive here: `animateScroll` returns at line 294 for a zero
argument, and a duration it derives is a power of a positive distance. -/
def frameTime (now startTime : ℚ) (duration : Val) : Val :=
  match duration with
  | Val.num d => Val.num (min 1 ((now - startTime) / d))
  | _ => Val.nan

/-- The value `Utils.easingFunction(time)` on a possibly `NaN` time. -/
def easedTime : Val → Val
  | Val.num t => Val.num (Utils.easingFunction t)
  | _ => Val.nan

/-- The closure `scrollAnimation` of `animateScroll`, run at clock `w.now`. -/
def Instance.scrollAnimation (a : AnimationRequest) (w : World) : World :=
  let time := frameTime w.now a.startTime a.duration
  let eased := easedTime time
  let w :=
    if a.endY.strictNe (Val.num a.startY) then
      { w with me := { w.me with scrollEl := { w.me.scrollEl with
          scrollTop := storeOffset ((eased.mul (a.endY.sub (Val.num a.startY))).add (Val.num a.startY)) } } }
    else w
  let w :=
    if a.endX.strictNe (Val.num a.startX) then
      { w with me := { w.me with scrollEl := { w.me.scrollEl with
          scrollLeft := storeOffset ((eased.mul (a.endX.sub (Val.num a.startX))).add (Val.num a.startX)) } } }
    else w
  if time.lt (Val.num 1) then
    { w with frames := w.frames ++ [Frame.scrollAnimation a] }
  else
    { w with me := { w.me with disableScrollEv := false } }

/-- One callback of the frame queue.  A callback that belongs to another
instance than `w.me` changes nothing this world records. -/
def runFrame (w : World) (f : Frame) : World :=
  match f with
  | Frame.spliceInstance index => { w with instances := w.instances.eraseIdx index }
  | Frame.restoreScrollEv id =>
    if id = w.me.id then { w with me := { w.me with disableScrollEv := false } } else w
  | Frame.scrollAnimation a =>
    if a.id = w.me.id then Instance.scrollAnimation a w else w

/-- The next animation frame: the callbacks queued so far run in the order
they were queued; what they queue waits for the frame after. -/
def runFrames (w : World) : World :=
  w.frames.foldl runFrame { w with frames := [] }

/-- A sequence of `destroy()` calls, each on its own instance, sharing the
globals and the frame queue. -/
def destroyAll (ms : List Instance) (w : World) : World :=
  ms.foldl (fun w m => Instance.destroy { w with me := m }) w

/-! ## Sample states -/

/-- A scroll element of 500 by 500 content pixels seen through a 100 by 100
viewport, at the given offsets. -/
def sampleEl (scrollTop scrollLeft : ℚ) : ScrollEl :=
  { scrollTop := scrollTop, scrollLeft := scrollLeft, scrollHeight := 500, clientHeight := 100,
    scrollWidth := 500, clientWidth := 100 }

/-- A world holding one freshly created instance with the default settings
and the given registry. -/
def sampleWorld (id : Nat) (el : ScrollEl) (instances : List Nat) : World :=
  { me := Instance.fresh id defaults el, instances := instances, pauseCheck := false, now := 0,
    frames := [] }

/-- The sample world once the four sizes of the sample element are cached. -/
def sampleCached (el : ScrollEl) : World :=
  { sampleWorld 1 el [1] with
    me := { Instance.fresh 1 defaults el with
      cache := { scrollH := Val.num 500, clientH := Val.num 100, scrollW := Val.num 500,
                 clientW := Val.num 100, v := ScrollbarCache.empty, h := ScrollbarCache.empty } } }

/-- The bounding rectangle of the sample scroll element. -/
def sampleFrame : Rect := { left := 0, top := 0, width := 100, height := 100 }

/-- A target 300 by 300 that starts 50 before the leading edges of the
viewport. -/
def sampleLarge : Rect := { left := -50, top := -50, width := 300, height := 300 }

/-- What a scrollbar's non-touch update leaves alone: `r` differs from `w` at
most in the two trackers (their `enabled` flags and `cache.v` / `cache.h`) and
in the event log. -/
def World.SameHost (w r : World) : Prop :=
  r.me.scrollEl = w.me.scrollEl ∧ r.me.cache.scrollH = w.me.cache.scrollH ∧
    r.me.cache.clientH = w.me.cache.clientH ∧ r.me.cache.scrollW = w.me.cache.scrollW ∧
    r.me.cache.clientW = w.me.cache.clientW ∧ r.me.settings = w.me.settings ∧
    r.me.id = w.me.id ∧ r.me.attached = w.me.attached ∧
    r.me.disableScrollEv = w.me.disableScrollEv ∧ r.me.bound = w.me.bound ∧
    r.instances = w.instances ∧ r.pauseCheck = w.pauseCheck ∧ r.now = w.now ∧
    r.frames = w.frames

/-! ## Notions used to state the properties -/

/-- The value is a finite number. -/
def Val.isNum : Val → Bool
  | Val.num _ => true
  | _ => false

/-- No `update` has cached the four sizes yet: they are all `undefined`. -/
def Cache.blank (c : Cache) : Bool :=
  decide (c.scrollH = Val.undef) && decide (c.clientH = Val.undef) &&
    decide (c.scrollW = Val.undef) && decide (c.clientW = Val.undef)

/-- An earlier `update` has cached the four sizes: they are all numbers. -/
def Cache.populated (c : Cache) : Bool :=
  c.scrollH.isNum && c.clientH.isNum && c.scrollW.isNum && c.clientW.isNum

/-- The number of `sizechange` notifications dispatched so far. -/
def sizechangeCount (w : World) : Nat :=
  (w.me.dispatched.map Event.name).count "sizechange"

/-- A scroll element of 10000 content pixels seen through a viewport 100 high,
with no horizontal overflow, at the given vertical offset. -/
def sampleTall (scrollTop : ℚ) : ScrollEl :=
  { scrollTop := scrollTop, scrollLeft := 0, scrollHeight := 10000, clientHeight := 100,
    scrollWidth := 100, clientWidth := 100 }

/-- An instance on the tall sample element with the default track sizes, its
four sizes cached and its vertical tracker enabled. -/
def sampleTallWorld (scrollTop : ℚ) (preventParentScroll : Bool) : World :=
  { me :=
      { Instance.fresh 1 { defaults with preventParentScroll := preventParentScroll }
          (sampleTall scrollTop) with
        cache := { scrollH := Val.num 10000, clientH := Val.num 100, scrollW := Val.num 100,
                   clientW := Val.num 100,
                   v := { ScrollbarCache.empty with enabled := some true },
                   h := ScrollbarCache.empty }
        enabledV := true }
    instances := [1], pauseCheck := false, now := 0, frames := [] }

/-- Specification, in the spec's words "target's bounding box (expanded by
per-edge margins) is fully visible", on the horizontal axis: with the scroll
element at offset `y` its viewport shows the content abscissas from `y` to
`y + clientW`; the target's left edge sits at content abscissa
`scrollLeft + eDim.left - sDim.left`, where `scrollLeft` is the offset at which
the two bounding rectangles were read, and the box reaches from `marginLeft`
before that edge to `marginRight` after the right edge. -/
def boxVisibleX (scrollLeft : ℚ) (eDim sDim : Rect) (marginLeft marginRight clientW y : ℚ) : Prop :=
  y ≤ (scrollLeft + eDim.left - sDim.left) - marginLeft ∧
    (scrollLeft + eDim.left - sDim.left) + eDim.width + marginRight ≤ y + clientW

/-- Specification: the same on the vertical axis, with the top edge at content
ordinate `scrollTop + eDim.top - sDim.top`, the target's height, the top and
bottom margins and the viewport height `clientH`. -/
def boxVisibleY (scrollTop : ℚ) (eDim sDim : Rect) (marginTop marginBottom clientH y : ℚ) : Prop :=
  y ≤ (scrollTop + eDim.top - sDim.top) - marginTop ∧
    (scrollTop + eDim.top - sDim.top) + eDim.height + marginBottom ≤ y + clientH

/-- An instance on content 700 wide and 900 high seen through a viewport 100
wide and 120 high, scrolled to 100 horizontally and 60 vertically, with its
four sizes cached. -/
def sampleOblong : World :=
  { me :=
      { Instance.fresh 1 defaults
          { scrollTop := 60, scrollLeft := 100, scrollHeight := 900, clientHeight := 120,
            scrollWidth := 700, clientWidth := 100 } with
        cache := { scrollH := Val.num 900, clientH := Val.num 120, scrollW := Val.num 700,
                   clientW := Val.num 100, v := ScrollbarCache.empty, h := ScrollbarCache.empty } }
    instances := [1], pauseCheck := false, now := 0, frames := [] }

/-- The bounding rectangle of the oblong sample's scroll element. -/
def sampleOblongFrame : Rect := { left := 10, top := 20, width := 100, height := 120 }

/-- A target 40 wide and 30 high, after the trailing edges of the oblong
sample's viewport. -/
def sampleOblongTarget : Rect := { left := 160, top := 190, width := 40, height := 30 }

/-- Four different margins: top 1, right 2, bottom 3, left 4. -/
def sampleMargins : Delta := Delta.obj (Val.num 1) (Val.num 2) (Val.num 3) (Val.num 4)

/-! ## Geometry lemmas -/

lemma clampMax_inv (M percent : ℚ) (ps : ℚ × ℚ) (h : ps.1 = percent / 100 * (1 - ps.2)) :
    (clampMax M percent ps).1 = percent / 100 * (1 - (clampMax M percent ps).2) := by
  unfold clampMax
  split_ifs
  · simp only [h]; ring
  · exact h

lemma clampMin_inv (m percent : ℚ) (ps : ℚ × ℚ) (h : ps.1 = percent / 100 * (1 - ps.2)) :
    (clampMin m percent ps).1 = percent / 100 * (1 - (clampMin m percent ps).2) := by
  unfold clampMin
  split_ifs
  · simp only [h]; ring
  · exact h

lemma clampMax_le_one (M percent : ℚ) (ps : ℚ × ℚ) (h : ps.2 ≤ 1) (hM : M ≤ 1) :
    (clampMax M percent ps).2 ≤ 1 := by
  unfold clampMax
  split_ifs <;> simp [*]

lemma clampMin_le_one (m percent : ℚ) (ps : ℚ × ℚ) (h : ps.2 ≤ 1) (hm : m ≤ 1) :
    (clampMin m percent ps).2 ≤ 1 := by
  unfold clampMin
  split_ifs <;> simp [*]

lemma overscroll_bounds (percent s p : ℚ) (hs : s ≤ 1) (hp : p = percent / 100 * (1 - s)) :
    0 ≤ overscroll percent s p ∧ overscroll percent s p ≤ 1 - s := by
  unfold overscroll
  have h1 : 0 ≤ 1 - s := by linarith
  by_cases hlt : percent < 0
  · have hng : ¬ percent > 100 := by linarith
    simp [hlt, hng, h1]
  · by_cases hgt : percent > 100
    · simp [hlt, hgt, h1]
    · simp only [hlt, hgt, if_false]
      have hq0 : 0 ≤ percent / 100 := by
        apply div_nonneg <;> linarith
      have hq1 : percent / 100 ≤ 1 := by
        rw [div_le_one (by norm_num)]; linarith
      subst hp
      constructor
      · exact mul_nonneg hq0 h1
      · calc percent / 100 * (1 - s) ≤ 1 * (1 - s) := mul_le_mul_of_nonneg_right hq1 h1
          _ = 1 - s := one_mul _

lemma calc_scrollable (position c S min max : ℚ) (hc : c ≠ S) (hS : S ≠ 0) :
    Scrollbar.calc position c S min max =
      (let percent := 100 * position / (S - c)
       let ps := clampMin (min / 100) percent (clampMax (max / 100) percent (position / S, c / S))
       { position := overscroll percent ps.2 ps.1, size := ps.2, percent := percent }) := by
  have h1 : ¬ (c / S = 1 ∨ S = 0) := by
    rintro (h | h)
    · exact hc ((div_eq_one_iff_eq hS).1 h)
    · exact hS h
  simp only [Scrollbar.calc, h1, if_false]

lemma calc_early_return (position clientSize scrollSize min max : ℚ)
    (h : clientSize = scrollSize ∨ scrollSize = 0) :
    Scrollbar.calc position clientSize scrollSize min max =
      { position := 0, size := 1, percent := 0 } := by
  have h1 : clientSize / scrollSize = 1 ∨ scrollSize = 0 := by
    by_cases hS : scrollSize = 0
    · exact Or.inr hS
    · rcases h with h | h
      · exact Or.inl (by rw [h]; exact div_self hS)
      · exact Or.inr h
  simp only [Scrollbar.calc, h1, if_true]

/-- C1: with `clientSize` equal to `scrollSize`, or `scrollSize` equal to 0,
`Scrollbar.calc` returns `{position: 0, size: 1, percent: 0}` for every
position and every min and max track size. -/
theorem calc_no_scrollbar (position clientSize scrollSize min max : ℚ)
    (h : clientSize = scrollSize ∨ scrollSize = 0) :
    Scrollbar.calc position clientSize scrollSize min max =
      { position := 0, size := 1, percent := 0 } :=
  calc_early_return position clientSize scrollSize min max h

theorem calc_no_scrollbar_witness :
    ((300 : ℚ) = 300 ∨ (300 : ℚ) = 0) ∧
      Scrollbar.calc 17 300 300 5 95 = { position := 0, size := 1, percent := 0 } :=
  ⟨Or.inl rfl, calc_no_scrollbar 17 300 300 5 95 (Or.inl rfl)⟩

/-- In exact arithmetic the position of `Scrollbar.calc` lies in
`[0, 1 - size]` for every scroll position. -/
lemma calc_position_bounds_exact (position clientSize scrollSize min max : ℚ)
    (hc : 0 < clientSize) (hcs : clientSize < scrollSize) (hmin : min ≤ 100) (hmax : max ≤ 100) :
    0 ≤ (Scrollbar.calc position clientSize scrollSize min max).position ∧
      (Scrollbar.calc position clientSize scrollSize min max).position ≤
        1 - (Scrollbar.calc position clientSize scrollSize min max).size := by
  have hS : 0 < scrollSize := lt_trans hc hcs
  have hd : 0 < scrollSize - clientSize := by linarith
  rw [calc_scrollable position clientSize scrollSize min max (ne_of_lt hcs) (ne_of_gt hS)]
  simp only
  apply overscroll_bounds
  · apply clampMin_le_one
    · apply clampMax_le_one
      · exact (div_le_one hS).2 (le_of_lt hcs)
      · rw [div_le_one (by norm_num)]; exact hmax
    · rw [div_le_one (by norm_num)]; exact hmin
  · apply clampMin_inv
    apply clampMax_inv
    simp only
    field_simp
    ring

/-! ## Binary64 lemmas -/

lemma pow2_eq (k : ℤ) : pow2 k = (2 : ℚ) ^ k := by
  cases k with
  | ofNat n => simp [pow2]
  | negSucc n =>
    simp only [pow2, zpow_negSucc, Rat.mkRat_eq_div]
    push_cast
    simp

lemma pow2_pos (k : ℤ) : 0 < pow2 k := by
  rw [pow2_eq]; positivity

lemma log2Nat_le (fuel n : ℕ) (hn : n ≠ 0) : 2 ^ log2Nat fuel n ≤ n := by
  induction fuel generalizing n with
  | zero => simp only [log2Nat, pow_zero]; omega
  | succ f ih =>
    unfold log2Nat
    split_ifs with h
    · simp only [pow_zero]; omega
    · have h2 : n / 2 ≠ 0 := by omega
      have := ih (n / 2) h2
      rw [pow_succ]
      omega

lemma log2Nat_lt (fuel n : ℕ) (hf : n ≤ fuel) : n < 2 ^ (log2Nat fuel n + 1) := by
  induction fuel generalizing n with
  | zero => simp only [log2Nat]; omega
  | succ f ih =>
    unfold log2Nat
    split_ifs with h
    · simp only [zero_add, pow_one]; exact h
    · have := ih (n / 2) (by omega)
      rw [pow_succ]
      omega

lemma log2Nat_mono (m n : ℕ) (hm : m ≠ 0) (h : m ≤ n) : log2Nat m m ≤ log2Nat n n := by
  have h1 := log2Nat_le m m hm
  have h2 := log2Nat_lt n n le_rfl
  have h3 : 2 ^ log2Nat m m < 2 ^ (log2Nat n n + 1) := lt_of_le_of_lt (le_trans h1 h) h2
  have := (Nat.pow_lt_pow_iff_right (by norm_num : 1 < 2)).1 h3
  omega

lemma log2Floor_nonpos (q : ℚ) (h0 : 0 < q) (h1 : q ≤ 1) : log2Floor q ≤ 0 := by
  have hnum : 0 < q.num := Rat.num_pos.2 h0
  have hle : q.num ≤ (q.den : ℤ) := by
    have hd : (0 : ℚ) < q.den := by exact_mod_cast q.den_pos
    have h2 : (q.num : ℚ) / q.den ≤ 1 := by rw [Rat.num_div_den]; exact h1
    rw [div_le_one hd] at h2
    exact_mod_cast h2
  have hk : (log2Nat q.num.natAbs q.num.natAbs : ℤ) - (log2Nat q.den q.den : ℤ) ≤ 0 := by
    have : q.num.natAbs ≤ q.den := by omega
    have := log2Nat_mono q.num.natAbs q.den (by omega) this
    omega
  unfold log2Floor
  simp only
  split_ifs <;> omega

lemma roundHalfEven_bounds (x : ℚ) (N : ℤ) (h0 : 0 ≤ x) (hN : x ≤ N) :
    0 ≤ roundHalfEven x ∧ roundHalfEven x ≤ N := by
  have hfl : Rat.floor x = ⌊x⌋ := rfl
  have hf0 : 0 ≤ ⌊x⌋ := Int.floor_nonneg.2 h0
  have hfN : ⌊x⌋ ≤ N := by
    have := Int.floor_le_floor hN
    rwa [Int.floor_intCast] at this
  unfold roundHalfEven
  simp only [hfl]
  by_cases hlt : x - (⌊x⌋ : ℚ) < 1 / 2
  · simp only [hlt, if_true]; exact ⟨hf0, hfN⟩
  · have hne : ⌊x⌋ ≠ N := by
      intro h
      have : x - (⌊x⌋ : ℚ) ≤ 0 := by rw [h]; linarith
      linarith
    have hlt2 : ⌊x⌋ + 1 ≤ N := by omega
    simp only [hlt, if_false]
    split_ifs <;> constructor <;> omega

lemma ratio_bracket (n d i j : ℕ) (hd : 0 < d) (hi1 : 2 ^ i ≤ n) (hi2 : n < 2 ^ (i + 1))
    (hj1 : 2 ^ j ≤ d) (hj2 : d < 2 ^ (j + 1)) :
    (2 : ℚ) ^ ((i : ℤ) - (j : ℤ) - 1) ≤ (n : ℚ) / d ∧ (n : ℚ) / d < (2 : ℚ) ^ ((i : ℤ) - (j : ℤ) + 1) := by
  have hdq : (0 : ℚ) < d := by exact_mod_cast hd
  have hi1q : (2 : ℚ) ^ i ≤ n := by exact_mod_cast hi1
  have hi2q : (n : ℚ) < (2 : ℚ) ^ (i + 1) := by exact_mod_cast hi2
  have hj1q : (2 : ℚ) ^ j ≤ d := by exact_mod_cast hj1
  have hj2q : (d : ℚ) < (2 : ℚ) ^ (j + 1) := by exact_mod_cast hj2
  have hpj : (0 : ℚ) < (2 : ℚ) ^ j := by positivity
  have hpj1 : (0 : ℚ) < (2 : ℚ) ^ (j + 1) := by positivity
  have hn0 : (0 : ℚ) ≤ n := by positivity
  constructor
  · rw [show (i : ℤ) - (j : ℤ) - 1 = (i : ℤ) - ((j + 1 : ℕ) : ℤ) by push_cast; ring,
      zpow_sub₀ (by norm_num), zpow_natCast, zpow_natCast, div_le_div_iff₀ hpj1 hdq]
    calc (2 : ℚ) ^ i * d ≤ (n : ℚ) * d := mul_le_mul_of_nonneg_right hi1q (le_of_lt hdq)
      _ ≤ (n : ℚ) * 2 ^ (j + 1) := mul_le_mul_of_nonneg_left (le_of_lt hj2q) hn0
  · rw [show (i : ℤ) - (j : ℤ) + 1 = ((i + 1 : ℕ) : ℤ) - (j : ℤ) by push_cast; ring,
      zpow_sub₀ (by norm_num), zpow_natCast, zpow_natCast, div_lt_div_iff₀ hdq hpj]
    calc (n : ℚ) * 2 ^ j ≤ (n : ℚ) * d := mul_le_mul_of_nonneg_left hj1q hn0
      _ < 2 ^ (i + 1) * d := mul_lt_mul_of_pos_right hi2q hdq

/-- The exponent found by `log2Floor` brackets its argument. -/
lemma log2Floor_spec (a : ℚ) (ha : 0 < a) :
    pow2 (log2Floor a) ≤ a ∧ a < pow2 (log2Floor a + 1) := by
  have hnum : 0 < a.num := Rat.num_pos.2 ha
  have hn0 : a.num.natAbs ≠ 0 := by omega
  have hnq : (a.num.natAbs : ℚ) = a.num := by
    rw [Nat.cast_natAbs, abs_of_pos hnum]
  have ha_eq : (a.num.natAbs : ℚ) / a.den = a := by rw [hnq, Rat.num_div_den]
  have hb := ratio_bracket a.num.natAbs a.den _ _ a.den_pos
    (log2Nat_le a.num.natAbs a.num.natAbs hn0) (log2Nat_lt a.num.natAbs a.num.natAbs le_rfl)
    (log2Nat_le a.den a.den a.den_nz) (log2Nat_lt a.den a.den le_rfl)
  rw [ha_eq] at hb
  unfold log2Floor
  simp only
  split_ifs with h
  · refine ⟨?_, ?_⟩
    · rw [pow2_eq]; exact hb.1
    · rw [sub_add_cancel]; exact h
  · refine ⟨not_lt.1 h, ?_⟩
    rw [pow2_eq]; exact hb.2

/-- The integer `roundHalfEven` picks is within one half of its argument. -/
lemma roundHalfEven_near (x : ℚ) : |(roundHalfEven x : ℚ) - x| ≤ 1 / 2 := by
  have hfl : Rat.floor x = ⌊x⌋ := rfl
  have h1 : (⌊x⌋ : ℚ) ≤ x := Int.floor_le x
  have h2 : x < ⌊x⌋ + 1 := Int.lt_floor_add_one x
  unfold roundHalfEven
  simp only [hfl]
  rw [abs_le]
  split_ifs with a b c
  · constructor <;> linarith
  · push_cast; constructor <;> linarith
  · constructor <;> linarith
  · push_cast; constructor <;> linarith

/-- A finite result of `F64.round` is an integer multiple of the unit in the
last place of its argument and lies within half that unit of the argument. -/
lemma round_near (q r : ℚ) (h : F64.round q = F64.fin r) :
    (∃ m : ℤ, r = m * pow2 (max (log2Floor |q| - 52) (-1074))) ∧
      |r - q| ≤ pow2 (max (log2Floor |q| - 52) (-1074)) / 2 := by
  have hp := pow2_pos (max (log2Floor |q| - 52) (-1074))
  have hnear := roundHalfEven_near (|q| / pow2 (max (log2Floor |q| - 52) (-1074)))
  have hscale : ∀ m : ℚ, abs (m * pow2 (max (log2Floor |q| - 52) (-1074)) - abs q) =
      abs (m - abs q / pow2 (max (log2Floor |q| - 52) (-1074))) *
        pow2 (max (log2Floor |q| - 52) (-1074)) := by
    intro m
    rw [← abs_of_pos hp, ← abs_mul, abs_of_pos hp]
    congr 1
    field_simp
  have hbound : abs ((roundHalfEven (|q| / pow2 (max (log2Floor |q| - 52) (-1074))) : ℚ) *
      pow2 (max (log2Floor |q| - 52) (-1074)) - abs q) ≤
        pow2 (max (log2Floor |q| - 52) (-1074)) / 2 := by
    rw [hscale]
    calc _ ≤ 1 / 2 * pow2 (max (log2Floor |q| - 52) (-1074)) :=
          mul_le_mul_of_nonneg_right hnear (le_of_lt hp)
      _ = pow2 (max (log2Floor |q| - 52) (-1074)) / 2 := by ring
  unfold F64.round at h
  by_cases hq : q = 0
  · simp only [hq, if_true, F64.fin.injEq] at h
    subst h; subst hq
    exact ⟨⟨0, by simp⟩, by simp only [sub_self, abs_zero]; positivity⟩
  · by_cases hov : pow2 1024 ≤ (roundHalfEven (|q| / pow2 (max (log2Floor |q| - 52) (-1074))) : ℚ) *
        pow2 (max (log2Floor |q| - 52) (-1074))
    · simp only [hq, if_false, hov, if_true] at h
      split_ifs at h
    · by_cases hneg : q < 0
      · simp only [hq, if_false, hov, hneg, if_true, F64.fin.injEq] at h
        refine ⟨⟨-roundHalfEven (|q| / pow2 (max (log2Floor |q| - 52) (-1074))), by
          rw [← h]; push_cast; ring⟩, ?_⟩
        have e : r - q = -((roundHalfEven (|q| / pow2 (max (log2Floor |q| - 52) (-1074))) : ℚ) *
            pow2 (max (log2Floor |q| - 52) (-1074)) - |q|) := by
          rw [← h, abs_of_neg hneg]; ring
        rw [e, abs_neg]; exact hbound
      · simp only [hq, if_false, hov, hneg, F64.fin.injEq] at h
        refine ⟨⟨roundHalfEven (|q| / pow2 (max (log2Floor |q| - 52) (-1074))), by rw [← h]⟩, ?_⟩
        have e : r - q = (roundHalfEven (|q| / pow2 (max (log2Floor |q| - 52) (-1074))) : ℚ) *
            pow2 (max (log2Floor |q| - 52) (-1074)) - |q| := by
          rw [← h, abs_of_nonneg (not_lt.1 hneg)]
        rw [e]; exact hbound

/-- The significand `F64.round` keeps has at most 53 bits. -/
lemma round_significand (q : ℚ) (hq : q ≠ 0) :
    0 ≤ roundHalfEven (|q| / pow2 (max (log2Floor |q| - 52) (-1074))) ∧
      roundHalfEven (|q| / pow2 (max (log2Floor |q| - 52) (-1074))) ≤ 2 ^ 53 := by
  have habs : 0 < |q| := abs_pos.2 hq
  have hp := pow2_pos (max (log2Floor |q| - 52) (-1074))
  have hspec := (log2Floor_spec |q| habs).2
  apply roundHalfEven_bounds
  · exact div_nonneg (le_of_lt habs) (le_of_lt hp)
  · rw [div_le_iff₀ hp]
    refine le_trans (le_of_lt hspec) ?_
    rw [pow2_eq, pow2_eq]
    have h53 : (((2 : ℤ) ^ 53 : ℤ) : ℚ) = (2 : ℚ) ^ (53 : ℤ) := by norm_num
    rw [h53, ← zpow_add₀ (by norm_num : (2 : ℚ) ≠ 0)]
    apply zpow_le_zpow_right₀ (by norm_num)
    have := le_max_left (log2Floor |q| - 52) (-1074)
    omega

/-- A value in `[0, 1]` rounds to a finite double in `[0, 1]`. -/
lemma round_unit (q : ℚ) (h0 : 0 ≤ q) (h1 : q ≤ 1) :
    ∃ r : ℚ, F64.round q = F64.fin r ∧ 0 ≤ r ∧ r ≤ 1 := by
  by_cases hq : q = 0
  · exact ⟨0, by simp [F64.round, hq], le_rfl, zero_le_one⟩
  · have hpos : 0 < q := lt_of_le_of_ne h0 (Ne.symm hq)
    have habs : |q| = q := abs_of_pos hpos
    have hl := log2Floor_nonpos q hpos h1
    obtain ⟨n, hn⟩ : ∃ n : ℕ, max (log2Floor q - 52) (-1074) = -(n : ℤ) := by
      refine ⟨(-(max (log2Floor q - 52) (-1074))).toNat, ?_⟩
      have : max (log2Floor q - 52) (-1074) ≤ 0 := max_le (by omega) (by norm_num)
      omega
    have hp : pow2 (-(n : ℤ)) = 1 / (2 : ℚ) ^ n := by
      rw [pow2_eq, zpow_neg, zpow_natCast, one_div]
    have h2n : (0 : ℚ) < (2 : ℚ) ^ n := by positivity
    have hx0 : 0 ≤ q / (1 / (2 : ℚ) ^ n) := by positivity
    have hxN : q / (1 / (2 : ℚ) ^ n) ≤ ((2 ^ n : ℤ) : ℚ) := by
      rw [div_div_eq_mul_div, div_one]
      push_cast
      calc q * 2 ^ n ≤ 1 * 2 ^ n := mul_le_mul_of_nonneg_right h1 (le_of_lt h2n)
        _ = 2 ^ n := one_mul _
    obtain ⟨hm0, hmN⟩ := roundHalfEven_bounds _ _ hx0 hxN
    have hr0 : 0 ≤ (roundHalfEven (q / (1 / (2 : ℚ) ^ n)) : ℚ) * (1 / (2 : ℚ) ^ n) := by
      have : (0 : ℚ) ≤ (roundHalfEven (q / (1 / (2 : ℚ) ^ n)) : ℚ) := by exact_mod_cast hm0
      positivity
    have hr1 : (roundHalfEven (q / (1 / (2 : ℚ) ^ n)) : ℚ) * (1 / (2 : ℚ) ^ n) ≤ 1 := by
      have : (roundHalfEven (q / (1 / (2 : ℚ) ^ n)) : ℚ) ≤ (2 : ℚ) ^ n := by exact_mod_cast hmN
      rw [mul_one_div, div_le_one h2n]
      exact this
    have hov : ¬ pow2 1024 ≤ (roundHalfEven (q / (1 / (2 : ℚ) ^ n)) : ℚ) * (1 / (2 : ℚ) ^ n) := by
      rw [not_le]
      refine lt_of_le_of_lt hr1 ?_
      rw [pow2_eq]
      exact one_lt_zpow₀ (by norm_num) (by norm_num)
    refine ⟨(roundHalfEven (q / (1 / (2 : ℚ) ^ n)) : ℚ) * (1 / (2 : ℚ) ^ n), ?_, hr0, hr1⟩
    unfold F64.round
    simp only [hq, if_false, habs, hn, hp, hov, not_lt.2 h0]

lemma div_unit (a b : ℚ) (ha : 0 ≤ a) (hab : a ≤ b) (hb : 0 < b) :
    ∃ r : ℚ, (F64.fin a).div (F64.fin b) = F64.fin r ∧ 0 ≤ r ∧ r ≤ 1 := by
  have h := round_unit (a / b) (div_nonneg ha (le_of_lt hb)) ((div_le_one hb).2 hab)
  simpa [F64.div, ne_of_gt hb] using h

lemma clampMax64_size (M pct : F64) (ps : F64 × F64)
    (hM : ∃ r : ℚ, M = F64.fin r ∧ 0 ≤ r ∧ r ≤ 1)
    (hs : ∃ r : ℚ, ps.2 = F64.fin r ∧ 0 ≤ r ∧ r ≤ 1) :
    ∃ r : ℚ, (clampMax64 M pct ps).2 = F64.fin r ∧ 0 ≤ r ∧ r ≤ 1 := by
  unfold clampMax64
  split_ifs
  · exact hM
  · exact hs

lemma clampMin64_size (m pct : F64) (ps : F64 × F64)
    (hm : ∃ r : ℚ, m = F64.fin r ∧ 0 ≤ r ∧ r ≤ 1)
    (hs : ∃ r : ℚ, ps.2 = F64.fin r ∧ 0 ≤ r ∧ r ≤ 1) :
    ∃ r : ℚ, (clampMin64 m pct ps).2 = F64.fin r ∧ 0 ≤ r ∧ r ≤ 1 := by
  unfold clampMin64
  split_ifs
  · exact hm
  · exact hs

lemma lt_zero_not_gt_hundred (pct : F64) (h : pct.lt (F64.fin 0) = true) :
    pct.gt (F64.fin 100) = false := by
  cases pct with
  | fin q =>
    simp only [F64.lt, F64.gt, decide_eq_true_eq, decide_eq_false_iff_not, not_lt] at *
    linarith
  | pinf => simp [F64.lt] at h
  | ninf => simp [F64.gt, F64.lt]
  | nan => simp [F64.lt] at h

/-- In doubles, with `0 < clientSize < scrollSize` and track bounds between 0
and 100, the returned size is a double `s <= 1`, the double `1 - size` is
nonnegative, and an overscrolled position is exactly 0 (before the start) or
exactly the double `1 - size` (past the end). -/
lemma calc64_overscroll (position clientSize scrollSize min max : ℚ)
    (hc : 0 < clientSize) (hcs : clientSize < scrollSize)
    (hmin0 : 0 ≤ min) (hmin : min ≤ 100) (hmax0 : 0 ≤ max) (hmax : max ≤ 100) :
    ∃ s r : ℚ,
      (Scrollbar.calc64 position clientSize scrollSize min max).size = F64.fin s ∧ s ≤ 1 ∧
      (F64.fin 1).sub (Scrollbar.calc64 position clientSize scrollSize min max).size = F64.fin r ∧
      0 ≤ r ∧
      ((Scrollbar.calc64 position clientSize scrollSize min max).percent.lt (F64.fin 0) = true →
        (Scrollbar.calc64 position clientSize scrollSize min max).position = F64.fin 0) ∧
      ((Scrollbar.calc64 position clientSize scrollSize min max).percent.gt (F64.fin 100) = true →
        (Scrollbar.calc64 position clientSize scrollSize min max).position = F64.fin r) := by
  have hS : 0 < scrollSize := lt_trans hc hcs
  have hsz := div_unit clientSize scrollSize (le_of_lt hc) (le_of_lt hcs) hS
  have hm := div_unit min 100 hmin0 hmin (by norm_num)
  have hM := div_unit max 100 hmax0 hmax (by norm_num)
  unfold Scrollbar.calc64
  simp only
  split_ifs with hret
  · refine ⟨1, 0, rfl, le_rfl, ?_, le_rfl, ?_, ?_⟩
    · simp [F64.sub, F64.round]
    · intro h; simp [F64.lt] at h
    · intro h; simp only [F64.gt, F64.lt, decide_eq_true_eq] at h; norm_num at h
  · obtain ⟨s, hs, hs0, hs1⟩ := clampMin64_size _
      (((F64.fin 100).mul (F64.fin position)).div ((F64.fin scrollSize).sub (F64.fin clientSize)))
      _ hm (clampMax64_size _
        (((F64.fin 100).mul (F64.fin position)).div ((F64.fin scrollSize).sub (F64.fin clientSize)))
        ((F64.fin position).div (F64.fin scrollSize), (F64.fin clientSize).div (F64.fin scrollSize))
        hM hsz)
    obtain ⟨r, hr, hr0, -⟩ := round_unit (1 - s) (by linarith) (by linarith)
    refine ⟨s, r, hs, hs1, ?_, hr0, ?_, ?_⟩
    · rw [hs]; exact hr
    · intro h
      simp only [overscroll64, h, lt_zero_not_gt_hundred _ h, if_true, Bool.false_eq_true, if_false]
    · intro h
      simp only [overscroll64, h, if_true, hs]
      exact hr

/-- C2 fails on the code, which computes in doubles.  `calc(1, 4, 5, 5, 95)`
returns position 0.2 and size 0.8 as doubles, and the double 0.2 exceeds
`1 - 0.8` (an exact subtraction of doubles) by `2 ^ -54`;
`calc(1, 1, 3, 100, 100)` returns the position `- 2 ^ -54`, below 0. -/
theorem calc_position_bounds_counterexample :
    Scrollbar.calc64 1 4 5 5 95 =
        { position := F64.fin (3602879701896397 / 18014398509481984),
          size := F64.fin (3602879701896397 / 4503599627370496), percent := F64.fin 100 } ∧
      (F64.fin 1).sub (F64.fin (3602879701896397 / 4503599627370496)) =
        F64.fin (1 - 3602879701896397 / 4503599627370496) ∧
      (1 - 3602879701896397 / 4503599627370496 : ℚ) < 3602879701896397 / 18014398509481984 ∧
      Scrollbar.calc64 1 1 3 100 100 =
        { position := F64.fin (-1 / 18014398509481984), size := F64.fin 1,
          percent := F64.fin 50 } ∧
      (-1 / 18014398509481984 : ℚ) < 0 :=
  ⟨by decide!, by decide!, by norm_num, by decide!, by norm_num⟩

/-- C2, amended: with `0 < clientSize < scrollSize` and min and max track
sizes between 0 and 100, for every scroll position the position and size of
`Scrollbar.calc` taken in exact arithmetic satisfy `0 <= position` and
`position <= 1 - size`; and in the doubles the code computes the size is at
most 1, the double `1 - size` is nonnegative, and an overscrolled position is
exactly 0 (percent below 0) or exactly the double `1 - size` (percent above
100), so that it lies between 0 and the double `1 - size`. -/
theorem calc_position_bounds (position clientSize scrollSize min max : ℚ)
    (hc : 0 < clientSize) (hcs : clientSize < scrollSize)
    (hmin0 : 0 ≤ min) (hmin : min ≤ 100) (hmax0 : 0 ≤ max) (hmax : max ≤ 100) :
    (0 ≤ (Scrollbar.calc position clientSize scrollSize min max).position ∧
      (Scrollbar.calc position clientSize scrollSize min max).position ≤
        1 - (Scrollbar.calc position clientSize scrollSize min max).size) ∧
    ∃ s r : ℚ,
      (Scrollbar.calc64 position clientSize scrollSize min max).size = F64.fin s ∧ s ≤ 1 ∧
      (F64.fin 1).sub (Scrollbar.calc64 position clientSize scrollSize min max).size = F64.fin r ∧
      0 ≤ r ∧
      ((Scrollbar.calc64 position clientSize scrollSize min max).percent.lt (F64.fin 0) = true →
        (Scrollbar.calc64 position clientSize scrollSize min max).position = F64.fin 0) ∧
      ((Scrollbar.calc64 position clientSize scrollSize min max).percent.gt (F64.fin 100) = true →
        (Scrollbar.calc64 position clientSize scrollSize min max).position = F64.fin r) :=
  ⟨calc_position_bounds_exact position clientSize scrollSize min max hc hcs hmin hmax,
    calc64_overscroll position clientSize scrollSize min max hc hcs hmin0 hmin hmax0 hmax⟩

theorem calc_position_bounds_witness :
    (0 ≤ (Scrollbar.calc 900 100 500 5 95).position ∧
      (Scrollbar.calc 900 100 500 5 95).position ≤ 1 - (Scrollbar.calc 900 100 500 5 95).size) ∧
    ∃ s r : ℚ,
      (Scrollbar.calc64 900 100 500 5 95).size = F64.fin s ∧ s ≤ 1 ∧
      (F64.fin 1).sub (Scrollbar.calc64 900 100 500 5 95).size = F64.fin r ∧
      0 ≤ r ∧
      ((Scrollbar.calc64 900 100 500 5 95).percent.lt (F64.fin 0) = true →
        (Scrollbar.calc64 900 100 500 5 95).position = F64.fin 0) ∧
      ((Scrollbar.calc64 900 100 500 5 95).percent.gt (F64.fin 100) = true →
        (Scrollbar.calc64 900 100 500 5 95).position = F64.fin r) :=
  calc_position_bounds 900 100 500 5 95 (by norm_num) (by norm_num) (by norm_num) (by norm_num)
    (by norm_num) (by norm_num)

/-- C3: with `0 < clientSize < scrollSize` and `min <= max`, the size
`Scrollbar.calc` returns lies in `[min/100, max/100]` for every position; and
`calc(0, 100, 500, 5, 95)` is `{position: 0, size: 0.2, percent: 0}`. -/
theorem calc_size_bounds (position clientSize scrollSize min max : ℚ)
    (hc : 0 < clientSize) (hcs : clientSize < scrollSize) (hmm : min ≤ max) :
    (min / 100 ≤ (Scrollbar.calc position clientSize scrollSize min max).size ∧
      (Scrollbar.calc position clientSize scrollSize min max).size ≤ max / 100) ∧
    Scrollbar.calc 0 100 500 5 95 = { position := 0, size := 1 / 5, percent := 0 } := by
  have hS : 0 < scrollSize := lt_trans hc hcs
  have hmm' : min / 100 ≤ max / 100 := div_le_div_of_nonneg_right hmm (by norm_num)
  refine ⟨?_, ?_⟩
  · rw [calc_scrollable position clientSize scrollSize min max (ne_of_lt hcs) (ne_of_gt hS)]
    simp only [clampMin, clampMax]
    split_ifs <;> constructor <;> simp only at * <;> linarith
  · rw [calc_scrollable 0 100 500 5 95 (by norm_num) (by norm_num)]
    simp only [clampMin, clampMax, overscroll]
    norm_num

theorem calc_size_bounds_witness :
    (((5 : ℚ) / 100 ≤ (Scrollbar.calc 40 100 500 5 95).size ∧
      (Scrollbar.calc 40 100 500 5 95).size ≤ 95 / 100) ∧
    Scrollbar.calc 0 100 500 5 95 = { position := 0, size := 1 / 5, percent := 0 }) :=
  calc_size_bounds 40 100 500 5 95 (by norm_num) (by norm_num) (by norm_num)

/-! ## Remainder lemmas -/

lemma trunc_intCast (k : ℤ) : trunc (k : ℚ) = k := by
  simp [trunc]

lemma jsMod_hundred_mul (k : ℤ) : jsMod (100 * (k : ℚ)) 100 = 0 := by
  have h : (100 * (k : ℚ)) / 100 = (k : ℚ) := by field_simp
  simp [jsMod, h, trunc_intCast]

lemma modHundredIsZero_hundred : modHundredIsZero (Val.num 100) = true := by
  have h := jsMod_hundred_mul 1
  simp only [Int.cast_one, mul_one] at h
  simp [modHundredIsZero, h]

lemma reachName_hundred (a : Axis) :
    reachName a (Val.num 100) = "scrollreach" ++ (evNames a).2 := by
  simp [reachName]

/-! ## Axis tracker lemmas -/

lemma calcV_num (position c S min max : ℚ) :
    Scrollbar.calcV position (Val.num c) (Val.num S) min max =
      { position := Val.num (Scrollbar.calc position c S min max).position,
        size := Val.num (Scrollbar.calc position c S min max).size,
        percent := Val.num (Scrollbar.calc position c S min max).percent } := rfl

/-- C5: when the cached `clientSize` equals the cached `scrollSize`, a
`Scrollbar.update` call, touch or not, from any prior tracker state leaves the
tracker disabled with size 1 and emits no notification. -/
theorem update_equal_sizes_disabled (pow054 : ℚ → ℚ) (a : Axis) (isOnTouch : Bool) (w : World)
    (c : ℚ) (hclient : w.me.cache.clientSize a = Val.num c)
    (hscroll : w.me.cache.scrollSize a = Val.num c) :
    (Scrollbar.update pow054 a isOnTouch w).me.enabled a = false ∧
      ((Scrollbar.update pow054 a isOnTouch w).me.cache.bar a).size = Val.num 1 ∧
      (Scrollbar.update pow054 a isOnTouch w).me.dispatched = w.me.dispatched := by
  have hcalc := fun p mn mx => calc_early_return p c c mn mx (Or.inl rfl)
  unfold Scrollbar.update Scrollbar.updateWith
  simp only [hclient, hscroll, calcV_num, hcalc]
  cases a <;> cases hen : w.me.enabledV <;> cases hen2 : w.me.enabledH <;>
    simp [Val.strictEq, Val.lt, Scrollbar.toggle, Scrollbar.checkEdges, Instance.enabled,
      Cache.bar, Cache.setBar, hen, hen2]

theorem update_equal_sizes_disabled_witness :
    (Scrollbar.update (fun x => x) Axis.v true
        (Scrollbar.toggle Axis.v true
          { sampleCached (sampleEl 0 0) with
            me := { (sampleCached (sampleEl 0 0)).me with
              cache := { (sampleCached (sampleEl 0 0)).me.cache with
                scrollH := Val.num 300, clientH := Val.num 300 } } })).me.enabled Axis.v = false :=
  (update_equal_sizes_disabled (fun x => x) Axis.v true
    (Scrollbar.toggle Axis.v true
      { sampleCached (sampleEl 0 0) with
        me := { (sampleCached (sampleEl 0 0)).me with
          cache := { (sampleCached (sampleEl 0 0)).me.cache with
            scrollH := Val.num 300, clientH := Val.num 300 } } }) 300 rfl rfl).1

lemma calc_percent_at_end (c S min max : ℚ)
    (h : (Scrollbar.calc (S - c) c S min max).size < 1) :
    (Scrollbar.calc (S - c) c S min max).percent = 100 := by
  by_cases h1 : c = S ∨ S = 0
  · rw [calc_early_return _ _ _ _ _ h1] at h
    exact absurd h (lt_irrefl _)
  · push_neg at h1
    rw [calc_scrollable _ _ _ _ _ h1.1 h1.2]
    have hd : S - c ≠ 0 := sub_ne_zero.2 (Ne.symm h1.1)
    simp only
    field_simp

/-- One non-touch update with the scroll offset held at the trailing end of a
scrollable axis: the tracker is enabled, `was` records 100, and the two
edge notifications are dispatched exactly when `was` did not already hold 100. -/
lemma update_at_end (pow054 : ℚ → ℚ) (a : Axis) (w : World) (c S : ℚ)
    (hclient : w.me.cache.clientSize a = Val.num c)
    (hscroll : w.me.cache.scrollSize a = Val.num S)
    (hpos : w.me.scrollEl.scrollProp a = S - c)
    (hsize : (Scrollbar.calc (S - c) c S w.me.settings.trackMin w.me.settings.trackMax).size < 1) :
    (Scrollbar.update pow054 a false w).me.enabled a = true ∧
      ((Scrollbar.update pow054 a false w).me.cache.bar a).was = Val.num 100 ∧
      (Scrollbar.update pow054 a false w).me.cache.clientSize a = Val.num c ∧
      (Scrollbar.update pow054 a false w).me.cache.scrollSize a = Val.num S ∧
      (Scrollbar.update pow054 a false w).me.scrollEl = w.me.scrollEl ∧
      (Scrollbar.update pow054 a false w).me.settings = w.me.settings ∧
      (Scrollbar.update pow054 a false w).me.dispatched.map Event.name =
        w.me.dispatched.map Event.name ++
          (if (w.me.cache.bar a).was = Val.num 100 then []
           else ["scrollreachedge", "scrollreach" ++ (evNames a).2]) := by
  have hpc := calc_percent_at_end c S _ _ hsize
  have hne : (Scrollbar.calc (S - c) c S w.me.settings.trackMin w.me.settings.trackMax).size ≠ 1 :=
    ne_of_lt hsize
  unfold Scrollbar.update Scrollbar.updateWith
  simp only [hclient, hscroll, hpos, calcV_num, hpc]
  have hwas : ∀ v : Val, v.strictNe (Val.num 100) = !decide (v = Val.num 100) := by
    intro v; cases v <;> simp [Val.strictNe, Val.strictEq]
  cases a <;> cases hen : w.me.enabledV <;> cases hen2 : w.me.enabledH <;>
    by_cases hw : w.me.cache.v.was = Val.num 100 <;>
    by_cases hw2 : w.me.cache.h.was = Val.num 100 <;>
    simp_all [Val.strictEq, Val.lt, Scrollbar.toggle, Scrollbar.checkEdges, Instance.enabled,
      Cache.bar, Cache.setBar, Cache.clientSize, Cache.scrollSize, modHundredIsZero_hundred,
      reachName_hundred, Instance.fireCustomEvent, hwas]

/-- Further non-touch updates at the trailing end, once `was` holds 100,
dispatch nothing. -/
lemma update_at_end_iterate (pow054 : ℚ → ℚ) (a : Axis) (c S : ℚ) (n : ℕ) :
    ∀ w : World,
      w.me.cache.clientSize a = Val.num c →
      w.me.cache.scrollSize a = Val.num S →
      w.me.scrollEl.scrollProp a = S - c →
      (Scrollbar.calc (S - c) c S w.me.settings.trackMin w.me.settings.trackMax).size < 1 →
      (w.me.cache.bar a).was = Val.num 100 →
      ((Scrollbar.update pow054 a false)^[n] w).me.dispatched.map Event.name =
        w.me.dispatched.map Event.name := by
  induction n with
  | zero => intro w _ _ _ _ _; rfl
  | succ k ih =>
    intro w hclient hscroll hpos hsize hwas
    obtain ⟨_, h2, h3, h4, h5, h6, h7⟩ := update_at_end pow054 a w c S hclient hscroll hpos hsize
    rw [Function.iterate_succ_apply, ih _ h3 h4 (by rw [h5]; exact hpos) (by rw [h6]; exact hsize) h2,
      h7, if_pos hwas, List.append_nil]

/-- C4: on a freshly created axis tracker whose computed track size is below
1, `n >= 1` consecutive non-touch `Scrollbar.update` calls with the scroll
offset held at `scrollSize - clientSize` dispatch `scrollreachedge` and the
trailing-edge notification (`scrollreachbottom` on the vertical axis,
`scrollreachright` on the horizontal one) exactly once: the first update
dispatches them and the following ones dispatch nothing. -/
theorem update_trailing_edge_once (pow054 : ℚ → ℚ) (a : Axis) (w : World) (c S : ℚ)
    (_hen : w.me.enabled a = false) (hfresh : w.me.cache.bar a = ScrollbarCache.empty)
    (hclient : w.me.cache.clientSize a = Val.num c)
    (hscroll : w.me.cache.scrollSize a = Val.num S)
    (hpos : w.me.scrollEl.scrollProp a = S - c)
    (hsize : (Scrollbar.calc (S - c) c S w.me.settings.trackMin w.me.settings.trackMax).size < 1)
    (n : ℕ) (hn : 1 ≤ n) :
    (Scrollbar.update pow054 a false w).me.dispatched.map Event.name =
        w.me.dispatched.map Event.name ++
          ["scrollreachedge",
            match a with
            | Axis.v => "scrollreachbottom"
            | Axis.h => "scrollreachright"] ∧
      ((Scrollbar.update pow054 a false)^[n] w).me.dispatched.map Event.name =
        (Scrollbar.update pow054 a false w).me.dispatched.map Event.name := by
  obtain ⟨_, h2, h3, h4, h5, h6, h7⟩ := update_at_end pow054 a w c S hclient hscroll hpos hsize
  have hw : ¬ (w.me.cache.bar a).was = Val.num 100 := by
    rw [hfresh]; simp [ScrollbarCache.empty]
  rw [if_neg hw] at h7
  constructor
  · rw [h7]; cases a <;> rfl
  · obtain ⟨k, rfl⟩ : ∃ k, n = k + 1 := ⟨n - 1, by omega⟩
    rw [Function.iterate_succ_apply]
    exact update_at_end_iterate pow054 a c S k _ h3 h4 (by rw [h5]; exact hpos)
      (by rw [h6]; exact hsize) h2

lemma sample_calc_at_end :
    Scrollbar.calc (500 - 100) 100 500 defaults.trackMin defaults.trackMax =
      { position := 4 / 5, size := 1 / 5, percent := 100 } := by
  rw [calc_scrollable _ _ _ _ _ (by norm_num) (by norm_num)]
  simp only [clampMin, clampMax, overscroll, Settings.trackMin, Settings.trackMax, defaults]
  norm_num

theorem update_trailing_edge_once_witness :
    ((Scrollbar.update (fun x => x) Axis.v false)^[5]
        (sampleCached (sampleEl 400 0))).me.dispatched.map Event.name =
      ["scrollreachedge", "scrollreachbottom"] := by
  have h := update_trailing_edge_once (fun x => x) Axis.v (sampleCached (sampleEl 400 0)) 100 500
    rfl rfl rfl rfl (by show (400 : ℚ) = 500 - 100; norm_num)
    (by show (Scrollbar.calc (500 - 100) 100 500 defaults.trackMin defaults.trackMax).size < 1
        rw [sample_calc_at_end]; norm_num) 5 (by norm_num)
  rw [h.2, h.1]
  rfl

/-! ## `scrollIntoView` -/

/-- C6 fails on the code: at scroll offsets 100 in a viewport 100 wide and
high, the target `sampleLarge` triggers both conditions on each axis
(`leftEdge = 50 < 100 < 250 = rightEdge`, and the same vertically), and the
end offsets passed to `animateScroll` are the trailing-edge values, not the
leading-edge ones. -/
theorem scrollIntoView_both_edges_counterexample :
    ((Instance.scrollIntoViewEdges (sampleCached (sampleEl 100 100)) sampleLarge sampleFrame
          Delta.none).leftEdge < (sampleCached (sampleEl 100 100)).me.scrollEl.scrollLeft ∧
      (Instance.scrollIntoViewEdges (sampleCached (sampleEl 100 100)) sampleLarge sampleFrame
          Delta.none).rightEdge.gt
        (Val.num (sampleCached (sampleEl 100 100)).me.scrollEl.scrollLeft) = true ∧
      (Instance.scrollIntoViewTargets (sampleCached (sampleEl 100 100)) sampleLarge sampleFrame
          Delta.none).endX ≠
        Val.num (Instance.scrollIntoViewEdges (sampleCached (sampleEl 100 100)) sampleLarge
          sampleFrame Delta.none).leftEdge) ∧
    ((Instance.scrollIntoViewEdges (sampleCached (sampleEl 100 100)) sampleLarge sampleFrame
          Delta.none).topEdge < (sampleCached (sampleEl 100 100)).me.scrollEl.scrollTop ∧
      (Instance.scrollIntoViewEdges (sampleCached (sampleEl 100 100)) sampleLarge sampleFrame
          Delta.none).bottomEdge.gt
        (Val.num (sampleCached (sampleEl 100 100)).me.scrollEl.scrollTop) = true ∧
      (Instance.scrollIntoViewTargets (sampleCached (sampleEl 100 100)) sampleLarge sampleFrame
          Delta.none).endY ≠
        Val.num (Instance.scrollIntoViewEdges (sampleCached (sampleEl 100 100)) sampleLarge
          sampleFrame Delta.none).topEdge) := by
  simp [Instance.scrollIntoViewTargets, Instance.scrollIntoViewEdges, sampleCached, sampleEl,
    Instance.fresh, sampleWorld, sampleLarge, sampleFrame, Delta.left, Delta.right, Delta.top,
    Delta.bottom, Val.sub, Val.add, Val.gt, Val.lt]
  norm_num

/-- C6, amended: when both edge conditions trigger on an axis, the end offset
passed to `animateScroll` for that axis is the trailing-edge value
(`rightEdge`, respectively `bottomEdge`). -/
theorem scrollIntoView_both_edges_trailing (w : World) (eDim sDim : Rect) (delta : Delta) :
    ((Instance.scrollIntoViewEdges w eDim sDim delta).leftEdge < w.me.scrollEl.scrollLeft →
      (Instance.scrollIntoViewEdges w eDim sDim delta).rightEdge.gt
        (Val.num w.me.scrollEl.scrollLeft) = true →
      (Instance.scrollIntoViewTargets w eDim sDim delta).endX =
        (Instance.scrollIntoViewEdges w eDim sDim delta).rightEdge) ∧
    ((Instance.scrollIntoViewEdges w eDim sDim delta).topEdge < w.me.scrollEl.scrollTop →
      (Instance.scrollIntoViewEdges w eDim sDim delta).bottomEdge.gt
        (Val.num w.me.scrollEl.scrollTop) = true →
      (Instance.scrollIntoViewTargets w eDim sDim delta).endY =
        (Instance.scrollIntoViewEdges w eDim sDim delta).bottomEdge) := by
  constructor
  · intro _ h
    simp only [Instance.scrollIntoViewTargets, h, if_true]
  · intro _ h
    simp only [Instance.scrollIntoViewTargets, h, if_true]

lemma sampleLarge_edges :
    Instance.scrollIntoViewEdges (sampleCached (sampleEl 100 100)) sampleLarge sampleFrame
      Delta.none = { leftEdge := 50, topEdge := 50, rightEdge := Val.num 250,
                     bottomEdge := Val.num 250 } := by
  simp [Instance.scrollIntoViewEdges, sampleCached, sampleEl, Instance.fresh, sampleWorld,
    sampleLarge, sampleFrame, Delta.left, Delta.right, Delta.top, Delta.bottom, Val.sub, Val.add]
  norm_num

theorem scrollIntoView_both_edges_trailing_witness :
    (Instance.scrollIntoViewTargets (sampleCached (sampleEl 100 100)) sampleLarge sampleFrame
        Delta.none).endX = Val.num 250 ∧
      (Instance.scrollIntoViewTargets (sampleCached (sampleEl 100 100)) sampleLarge sampleFrame
        Delta.none).endY = Val.num 250 := by
  have h := scrollIntoView_both_edges_trailing (sampleCached (sampleEl 100 100)) sampleLarge
    sampleFrame Delta.none
  rw [sampleLarge_edges] at h
  exact ⟨h.1 (by norm_num [sampleCached, sampleEl, Instance.fresh])
      (by simp [Val.gt, Val.lt, sampleCached, sampleEl, Instance.fresh]; norm_num),
    h.2 (by norm_num [sampleCached, sampleEl, Instance.fresh])
      (by simp [Val.gt, Val.lt, sampleCached, sampleEl, Instance.fresh]; norm_num)⟩

lemma clamp_nearest (R L s y : ℚ) (hRL : R ≤ L) (hy1 : R ≤ y) (hy2 : y ≤ L) :
    |max R (min s L) - s| ≤ |y - s| := by
  rcases le_total s L with h1 | h1
  · rw [min_eq_left h1]
    rcases le_total R s with h2 | h2
    · rw [max_eq_right h2, sub_self, abs_zero]; exact abs_nonneg _
    · rw [max_eq_left h2, abs_of_nonneg (by linarith), abs_of_nonneg (by linarith)]; linarith
  · rw [min_eq_right h1, max_eq_right hRL, abs_of_nonpos (by linarith), abs_of_nonpos (by linarith)]
    linarith

lemma intoView_end (s L R : ℚ) (hRL : R ≤ L) :
    (if (Val.num R).gt (Val.num s) = true then Val.num R
      else if L < s then Val.num L else Val.num s) = Val.num (max R (min s L)) := by
  simp only [Val.gt, Val.lt, decide_eq_true_eq]
  split_ifs with h1 h2
  · rw [max_eq_left]; exact le_trans (min_le_left _ _) (le_of_lt h1)
  · rw [min_eq_right (le_of_lt h2), max_eq_right hRL]
  · push_neg at h1 h2
    rw [min_eq_left h2, max_eq_right h1]

/-- C7: on an axis where the target's extent plus its two margins does not
exceed the cached client size, `rightEdge <= leftEdge` (respectively
`bottomEdge <= topEdge`), the offsets at which the margin-expanded bounding box
lies fully inside the viewport are exactly those of `[rightEdge, leftEdge]`,
and the end offset `scrollIntoView` computes is the start offset clamped into
that interval: the box is fully visible at it, no offset with the box fully
visible is nearer to the start offset, and it is the start offset itself when
the box is already fully visible. -/
theorem scrollIntoView_fits_nearest (w : World) (eDim sDim : Rect) (delta : Delta) :
    (∀ cW : ℚ, w.me.cache.clientW = Val.num cW →
      eDim.width + delta.left + delta.right ≤ cW →
      ∃ R L x : ℚ,
        (Instance.scrollIntoViewEdges w eDim sDim delta).rightEdge = Val.num R ∧
        (Instance.scrollIntoViewEdges w eDim sDim delta).leftEdge = L ∧ R ≤ L ∧
        (∀ y : ℚ, boxVisibleX w.me.scrollEl.scrollLeft eDim sDim delta.left delta.right cW y ↔
          R ≤ y ∧ y ≤ L) ∧
        (Instance.scrollIntoViewTargets w eDim sDim delta).endX = Val.num x ∧
        x = max R (min w.me.scrollEl.scrollLeft L) ∧
        boxVisibleX w.me.scrollEl.scrollLeft eDim sDim delta.left delta.right cW x ∧
        (∀ y : ℚ, boxVisibleX w.me.scrollEl.scrollLeft eDim sDim delta.left delta.right cW y →
          |x - w.me.scrollEl.scrollLeft| ≤ |y - w.me.scrollEl.scrollLeft|) ∧
        (boxVisibleX w.me.scrollEl.scrollLeft eDim sDim delta.left delta.right cW
            w.me.scrollEl.scrollLeft → x = w.me.scrollEl.scrollLeft)) ∧
    (∀ cH : ℚ, w.me.cache.clientH = Val.num cH →
      eDim.height + delta.top + delta.bottom ≤ cH →
      ∃ B T x : ℚ,
        (Instance.scrollIntoViewEdges w eDim sDim delta).bottomEdge = Val.num B ∧
        (Instance.scrollIntoViewEdges w eDim sDim delta).topEdge = T ∧ B ≤ T ∧
        (∀ y : ℚ, boxVisibleY w.me.scrollEl.scrollTop eDim sDim delta.top delta.bottom cH y ↔
          B ≤ y ∧ y ≤ T) ∧
        (Instance.scrollIntoViewTargets w eDim sDim delta).endY = Val.num x ∧
        x = max B (min w.me.scrollEl.scrollTop T) ∧
        boxVisibleY w.me.scrollEl.scrollTop eDim sDim delta.top delta.bottom cH x ∧
        (∀ y : ℚ, boxVisibleY w.me.scrollEl.scrollTop eDim sDim delta.top delta.bottom cH y →
          |x - w.me.scrollEl.scrollTop| ≤ |y - w.me.scrollEl.scrollTop|) ∧
        (boxVisibleY w.me.scrollEl.scrollTop eDim sDim delta.top delta.bottom cH
            w.me.scrollEl.scrollTop → x = w.me.scrollEl.scrollTop)) := by
  constructor
  · intro cW hcW hfit
    have hR : (Instance.scrollIntoViewEdges w eDim sDim delta).rightEdge =
        Val.num (w.me.scrollEl.scrollLeft + eDim.left - sDim.left + eDim.width - cW + delta.right) := by
      simp only [Instance.scrollIntoViewEdges, hcW, Val.sub, Val.add]
    have hL : (Instance.scrollIntoViewEdges w eDim sDim delta).leftEdge =
        w.me.scrollEl.scrollLeft + eDim.left - sDim.left - delta.left := rfl
    have hRL : w.me.scrollEl.scrollLeft + eDim.left - sDim.left + eDim.width - cW + delta.right ≤
        w.me.scrollEl.scrollLeft + eDim.left - sDim.left - delta.left := by linarith
    have hiff : ∀ y : ℚ,
        boxVisibleX w.me.scrollEl.scrollLeft eDim sDim delta.left delta.right cW y ↔
          w.me.scrollEl.scrollLeft + eDim.left - sDim.left + eDim.width - cW + delta.right ≤ y ∧
            y ≤ w.me.scrollEl.scrollLeft + eDim.left - sDim.left - delta.left := by
      intro y
      unfold boxVisibleX
      constructor
      · rintro ⟨h1, h2⟩; exact ⟨by linarith, h1⟩
      · rintro ⟨h1, h2⟩; exact ⟨h2, by linarith⟩
    have hend : (Instance.scrollIntoViewTargets w eDim sDim delta).endX =
        Val.num (max (w.me.scrollEl.scrollLeft + eDim.left - sDim.left + eDim.width - cW + delta.right)
          (min w.me.scrollEl.scrollLeft
            (w.me.scrollEl.scrollLeft + eDim.left - sDim.left - delta.left))) := by
      rw [← intoView_end _ _ _ hRL]
      simp only [Instance.scrollIntoViewTargets, hR, hL]
    refine ⟨_, _, _, hR, hL, hRL, hiff, hend, rfl, ?_, ?_, ?_⟩
    · exact (hiff _).2 ⟨le_max_left _ _, max_le hRL (min_le_right _ _)⟩
    · intro y hy
      exact clamp_nearest _ _ _ _ hRL ((hiff y).1 hy).1 ((hiff y).1 hy).2
    · intro hs
      rw [min_eq_left ((hiff _).1 hs).2, max_eq_right ((hiff _).1 hs).1]
  · intro cH hcH hfit
    have hB : (Instance.scrollIntoViewEdges w eDim sDim delta).bottomEdge =
        Val.num (w.me.scrollEl.scrollTop + eDim.top - sDim.top + eDim.height - cH + delta.bottom) := by
      simp only [Instance.scrollIntoViewEdges, hcH, Val.sub, Val.add]
    have hT : (Instance.scrollIntoViewEdges w eDim sDim delta).topEdge =
        w.me.scrollEl.scrollTop + eDim.top - sDim.top - delta.top := rfl
    have hBT : w.me.scrollEl.scrollTop + eDim.top - sDim.top + eDim.height - cH + delta.bottom ≤
        w.me.scrollEl.scrollTop + eDim.top - sDim.top - delta.top := by linarith
    have hiff : ∀ y : ℚ,
        boxVisibleY w.me.scrollEl.scrollTop eDim sDim delta.top delta.bottom cH y ↔
          w.me.scrollEl.scrollTop + eDim.top - sDim.top + eDim.height - cH + delta.bottom ≤ y ∧
            y ≤ w.me.scrollEl.scrollTop + eDim.top - sDim.top - delta.top := by
      intro y
      unfold boxVisibleY
      constructor
      · rintro ⟨h1, h2⟩; exact ⟨by linarith, h1⟩
      · rintro ⟨h1, h2⟩; exact ⟨h2, by linarith⟩
    have hend : (Instance.scrollIntoViewTargets w eDim sDim delta).endY =
        Val.num (max (w.me.scrollEl.scrollTop + eDim.top - sDim.top + eDim.height - cH + delta.bottom)
          (min w.me.scrollEl.scrollTop
            (w.me.scrollEl.scrollTop + eDim.top - sDim.top - delta.top))) := by
      rw [← intoView_end _ _ _ hBT]
      simp only [Instance.scrollIntoViewTargets, hB, hT]
    refine ⟨_, _, _, hB, hT, hBT, hiff, hend, rfl, ?_, ?_, ?_⟩
    · exact (hiff _).2 ⟨le_max_left _ _, max_le hBT (min_le_right _ _)⟩
    · intro y hy
      exact clamp_nearest _ _ _ _ hBT ((hiff y).1 hy).1 ((hiff y).1 hy).2
    · intro hs
      rw [min_eq_left ((hiff _).1 hs).2, max_eq_right ((hiff _).1 hs).1]

lemma sampleOblong_edges :
    Instance.scrollIntoViewEdges sampleOblong sampleOblongTarget sampleOblongFrame sampleMargins =
      { leftEdge := 246, topEdge := 229, rightEdge := Val.num 192, bottomEdge := Val.num 143 } := by
  simp [Instance.scrollIntoViewEdges, sampleOblong, Instance.fresh, sampleOblongTarget,
    sampleOblongFrame, sampleMargins, Delta.left, Delta.right, Delta.top, Delta.bottom, Val.orZero,
    Val.sub, Val.add]
  norm_num

theorem scrollIntoView_fits_nearest_witness :
    ((Instance.scrollIntoViewTargets sampleOblong sampleOblongTarget sampleOblongFrame
          sampleMargins).endX = Val.num 192 ∧
        boxVisibleX 100 sampleOblongTarget sampleOblongFrame 4 2 100 192) ∧
      ((Instance.scrollIntoViewTargets sampleOblong sampleOblongTarget sampleOblongFrame
          sampleMargins).endY = Val.num 143 ∧
        boxVisibleY 60 sampleOblongTarget sampleOblongFrame 1 3 120 143) := by
  have h := scrollIntoView_fits_nearest sampleOblong sampleOblongTarget sampleOblongFrame
    sampleMargins
  constructor
  · obtain ⟨R, L, x, hR, hL, -, -, hend, hx, hvis, -⟩ := h.1 100 rfl
      (by norm_num [sampleOblongTarget, sampleMargins, Delta.left, Delta.right, Val.orZero])
    rw [sampleOblong_edges] at hR hL
    simp only [Val.num.injEq] at hR
    subst hR; subst hL
    have hx2 : x = 192 := by
      rw [hx]; norm_num [sampleOblong, Instance.fresh]
    subst hx2
    exact ⟨hend, hvis⟩
  · obtain ⟨B, T, x, hB, hT, -, -, hend, hx, hvis, -⟩ := h.2 120 rfl
      (by norm_num [sampleOblongTarget, sampleMargins, Delta.top, Delta.bottom, Val.orZero])
    rw [sampleOblong_edges] at hB hT
    simp only [Val.num.injEq] at hB
    subst hB; subst hT
    have hx2 : x = 143 := by
      rw [hx]; norm_num [sampleOblong, Instance.fresh]
    subst hx2
    exact ⟨hend, hvis⟩

/-! ## Frame conditions of the non-touch update -/

lemma SameHost.refl (w : World) : w.SameHost w := by
  simp [World.SameHost]

lemma SameHost.trans {a b c : World} (h1 : a.SameHost b) (h2 : b.SameHost c) : a.SameHost c := by
  unfold World.SameHost at *
  obtain ⟨a1, a2, a3, a4, a5, a6, a7, a8, a9, a10, a11, a12, a13, a14⟩ := h1
  obtain ⟨b1, b2, b3, b4, b5, b6, b7, b8, b9, b10, b11, b12, b13, b14⟩ := h2
  exact ⟨b1.trans a1, b2.trans a2, b3.trans a3, b4.trans a4, b5.trans a5, b6.trans a6,
    b7.trans a7, b8.trans a8, b9.trans a9, b10.trans a10, b11.trans a11, b12.trans a12,
    b13.trans a13, b14.trans a14⟩

lemma SameHost.ite (c : Prop) [Decidable c] {w r : World} (h : w.SameHost r) :
    w.SameHost (if c then r else w) := by
  split_ifs
  · exact h
  · exact SameHost.refl w

lemma toggle_sameHost (a : Axis) (b : Bool) (w : World) : w.SameHost (Scrollbar.toggle a b w) := by
  cases a <;> simp [World.SameHost, Scrollbar.toggle, Cache.setBar]

lemma fire_sameHost (w : World) (name : String) : w.SameHost (Instance.fireCustomEvent w name) := by
  simp [World.SameHost, Instance.fireCustomEvent]

lemma setBar_sameHost (a : Axis) (b : ScrollbarCache) (w : World) :
    w.SameHost { w with me := { w.me with cache := w.me.cache.setBar a b } } := by
  cases a <;> simp [World.SameHost, Cache.setBar]

lemma checkEdges_false_sameHost (k : ScrollTo) (a : Axis) (w : World) :
    w.SameHost (Scrollbar.checkEdges k a false w) := by
  unfold Scrollbar.checkEdges
  simp only [Bool.and_false, Bool.false_and, Bool.false_eq_true, if_false, Bool.not_false,
    Bool.and_true]
  split_ifs
  · exact SameHost.refl w
  · exact SameHost.trans
      (SameHost.trans (fire_sameHost w _) (fire_sameHost _ _)) (setBar_sameHost a _ _)
  · exact setBar_sameHost a _ _

/-- A non-touch scrollbar update touches only the trackers and the event
log, whatever callback it is given. -/
lemma updateWith_false_sameHost (k : ScrollTo) (a : Axis) (w : World) :
    w.SameHost (Scrollbar.updateWith k a false w) := by
  unfold Scrollbar.updateWith
  exact SameHost.trans (SameHost.trans (SameHost.trans
    (SameHost.ite _ (toggle_sameHost a false w)) (SameHost.ite _ (toggle_sameHost a true _)))
    (setBar_sameHost a _ _)) (checkEdges_false_sameHost k a _)

/-- The callback of a non-touch scrollbar update is never applied. -/
lemma updateWith_false_callback (k k' : ScrollTo) (a : Axis) (w : World) :
    Scrollbar.updateWith k a false w = Scrollbar.updateWith k' a false w := by
  unfold Scrollbar.updateWith Scrollbar.checkEdges
  simp only [Bool.and_false, Bool.false_and, Bool.false_eq_true, if_false]

/-! ## `Instance.update` and `scrollTo` -/

lemma destroy_scrollEl (w : World) : (Instance.destroy w).me.scrollEl = w.me.scrollEl := by
  have h : ({ w with me := { w.me with bound := false } } : World).SameHost
      (Scrollbar.toggle Axis.h false (Scrollbar.toggle Axis.v false
        { w with me := { w.me with bound := false } })) := by
    refine SameHost.trans ?_ (toggle_sameHost Axis.h false _)
    exact toggle_sameHost Axis.v false _
  unfold Instance.destroy
  cases indexOf w.instances w.me.id
  · exact h.1
  · exact h.1

lemma refresh_sameHost (w : World) : (Instance.storeSizes w).SameHost (Instance.refresh w) := by
  unfold Instance.refresh Instance.invokeUpdate
  refine SameHost.trans ?_ (updateWith_false_sameHost _ Axis.h _)
  refine SameHost.trans ?_ (updateWith_false_sameHost _ Axis.v _)
  exact SameHost.ite _ (fire_sameHost _ _)

lemma update_scrollEl (w : World) : (Instance.update w).me.scrollEl = w.me.scrollEl := by
  unfold Instance.update
  split_ifs
  · exact destroy_scrollEl w
  · exact (refresh_sameHost w).1
  · rfl

lemma strictNe_num_false (q : ℚ) (v : Val) (h : (Val.num q).strictNe v = false) : v = Val.num q := by
  cases v <;> simp_all [Val.strictNe, Val.strictEq]

lemma update_cache_sizes (w : World) (hatt : w.me.attached = true) :
    (Instance.update w).me.cache.scrollH = Val.num w.me.scrollEl.scrollHeight ∧
      (Instance.update w).me.cache.clientH = Val.num w.me.scrollEl.clientHeight ∧
      (Instance.update w).me.cache.scrollW = Val.num w.me.scrollEl.scrollWidth ∧
      (Instance.update w).me.cache.clientW = Val.num w.me.scrollEl.clientWidth := by
  unfold Instance.update
  split_ifs with h1 h2
  · rw [hatt] at h2; simp at h2
  · have h := refresh_sameHost w
    exact ⟨h.2.1, h.2.2.1, h.2.2.2.1, h.2.2.2.2.1⟩
  · simp only [Instance.sizesChanged, Bool.or_eq_true, not_or, Bool.not_eq_true] at h1
    obtain ⟨⟨⟨a1, a2⟩, a3⟩, a4⟩ := h1
    exact ⟨strictNe_num_false _ _ a1, strictNe_num_false _ _ a2, strictNe_num_false _ _ a3,
      strictNe_num_false _ _ a4⟩

/-- C10: for an instance whose element is attached and any four dimensions
read from the scroll element, after `Instance.update()` the cache fields
`scrollH`, `clientH`, `scrollW` and `clientW` equal those four values. -/
theorem update_caches_fresh_sizes (w : World) (sH cH sW cW : ℚ) (hatt : w.me.attached = true)
    (hsH : w.me.scrollEl.scrollHeight = sH) (hcH : w.me.scrollEl.clientHeight = cH)
    (hsW : w.me.scrollEl.scrollWidth = sW) (hcW : w.me.scrollEl.clientWidth = cW) :
    (Instance.update w).me.cache.scrollH = Val.num sH ∧
      (Instance.update w).me.cache.clientH = Val.num cH ∧
      (Instance.update w).me.cache.scrollW = Val.num sW ∧
      (Instance.update w).me.cache.clientW = Val.num cW := by
  subst hsH hcH hsW hcW
  exact update_cache_sizes w hatt

theorem update_caches_fresh_sizes_witness :
    (Instance.update { sampleCached (sampleEl 0 0) with
        me := { (sampleCached (sampleEl 0 0)).me with
          scrollEl := { scrollTop := 0, scrollLeft := 0, scrollHeight := 300, clientHeight := 300,
                        scrollWidth := 300, clientWidth := 300 } } }).me.cache.scrollH = Val.num 300 ∧
      (Instance.update { sampleCached (sampleEl 0 0) with
        me := { (sampleCached (sampleEl 0 0)).me with
          scrollEl := { scrollTop := 0, scrollLeft := 0, scrollHeight := 300, clientHeight := 300,
                        scrollWidth := 300, clientWidth := 300 } } }).me.cache.clientH = Val.num 300 ∧
      (Instance.update { sampleCached (sampleEl 0 0) with
        me := { (sampleCached (sampleEl 0 0)).me with
          scrollEl := { scrollTop := 0, scrollLeft := 0, scrollHeight := 300, clientHeight := 300,
                        scrollWidth := 300, clientWidth := 300 } } }).me.cache.scrollW = Val.num 300 ∧
      (Instance.update { sampleCached (sampleEl 0 0) with
        me := { (sampleCached (sampleEl 0 0)).me with
          scrollEl := { scrollTop := 0, scrollLeft := 0, scrollHeight := 300, clientHeight := 300,
                        scrollWidth := 300, clientWidth := 300 } } }).me.cache.clientW = Val.num 300 :=
  update_caches_fresh_sizes _ 300 300 300 300 rfl rfl rfl rfl rfl

lemma animateScroll_zero_offsets (pow054 : ℚ → ℚ) (w : World) (startX : ℚ) (endX : Val)
    (startY : ℚ) (endY : Val) (hx : w.me.scrollEl.scrollLeft = startX)
    (hy : w.me.scrollEl.scrollTop = startY) :
    (Instance.animateScroll pow054 w startX endX startY endY (Val.num 0)).me.scrollEl.scrollLeft =
        storeOffset endX ∧
      (Instance.animateScroll pow054 w startX endX startY endY (Val.num 0)).me.scrollEl.scrollTop =
        storeOffset endY := by
  unfold Instance.animateScroll
  simp only
  have h0 : (Val.num 0).strictEq (Val.num 0) = true := by simp [Val.strictEq]
  rw [h0]
  simp only [if_true]
  split_ifs with h1
  · simp only [Bool.and_eq_true] at h1
    obtain ⟨e1, e2⟩ := h1
    cases endX <;> cases endY <;> simp_all [Val.strictEq, storeOffset]
  · exact ⟨rfl, rfl⟩

/-- C8: with duration 0, `scrollTo` leaves the scroll element at the offsets it
resolves in the world `u` left by the forced update: `'left'` and `'top'`
resolve to 0, `'right'` to `cache.scrollW - cache.clientW`, `'bottom'` to
`cache.scrollH - cache.clientH`, a number to itself and `false` to the current
offset of its axis.  So `scrollTo('right', false, 0)` sets the horizontal
offset to `cache.scrollW - cache.clientW` and leaves the vertical one. -/
theorem scrollTo_zero_duration (pow054 : ℚ → ℚ) (w : World) (disableEvents : Bool)
    (sW cW sH cH : ℚ)
    (hsW : (Instance.update { w with pauseCheck := true }).me.cache.scrollW = Val.num sW)
    (hcW : (Instance.update { w with pauseCheck := true }).me.cache.clientW = Val.num cW)
    (hsH : (Instance.update { w with pauseCheck := true }).me.cache.scrollH = Val.num sH)
    (hcH : (Instance.update { w with pauseCheck := true }).me.cache.clientH = Val.num cH) :
    ((Instance.scrollTo pow054 w Dest.right Dest.no (Val.num 0) disableEvents).me.scrollEl.scrollLeft
        = sW - cW ∧
      (Instance.scrollTo pow054 w Dest.right Dest.no (Val.num 0) disableEvents).me.scrollEl.scrollTop
        = w.me.scrollEl.scrollTop) ∧
    (∀ destX destY : Dest,
      (Instance.scrollTo pow054 w destX destY (Val.num 0) disableEvents).me.scrollEl.scrollLeft =
          storeOffset (Instance.scrollToTargets (Instance.update { w with pauseCheck := true })
            destX destY).endX ∧
        (Instance.scrollTo pow054 w destX destY (Val.num 0) disableEvents).me.scrollEl.scrollTop =
          storeOffset (Instance.scrollToTargets (Instance.update { w with pauseCheck := true })
            destX destY).endY) ∧
    (∀ (destX destY : Dest) (x y : ℚ),
      (Instance.scrollToTargets (Instance.update { w with pauseCheck := true })
          Dest.left destY).endX = Val.num 0 ∧
        (Instance.scrollToTargets (Instance.update { w with pauseCheck := true })
          Dest.right destY).endX = Val.num (sW - cW) ∧
        (Instance.scrollToTargets (Instance.update { w with pauseCheck := true })
          (Dest.val (Val.num x)) destY).endX = Val.num x ∧
        (Instance.scrollToTargets (Instance.update { w with pauseCheck := true })
          Dest.no destY).endX = Val.num w.me.scrollEl.scrollLeft ∧
        (Instance.scrollToTargets (Instance.update { w with pauseCheck := true })
          destX Dest.top).endY = Val.num 0 ∧
        (Instance.scrollToTargets (Instance.update { w with pauseCheck := true })
          destX Dest.bottom).endY = Val.num (sH - cH) ∧
        (Instance.scrollToTargets (Instance.update { w with pauseCheck := true })
          destX (Dest.val (Val.num y))).endY = Val.num y ∧
        (Instance.scrollToTargets (Instance.update { w with pauseCheck := true })
          destX Dest.no).endY = Val.num w.me.scrollEl.scrollTop) := by
  have hel : (Instance.update { w with pauseCheck := true }).me.scrollEl = w.me.scrollEl :=
    update_scrollEl _
  have hgen : ∀ destX destY : Dest,
      (Instance.scrollTo pow054 w destX destY (Val.num 0) disableEvents).me.scrollEl.scrollLeft =
          storeOffset (Instance.scrollToTargets (Instance.update { w with pauseCheck := true })
            destX destY).endX ∧
        (Instance.scrollTo pow054 w destX destY (Val.num 0) disableEvents).me.scrollEl.scrollTop =
          storeOffset (Instance.scrollToTargets (Instance.update { w with pauseCheck := true })
            destX destY).endY := by
    intro destX destY
    unfold Instance.scrollTo
    exact animateScroll_zero_offsets pow054 _ _ _ _ _ rfl rfl
  have htab : ∀ (destX destY : Dest) (x y : ℚ),
      (Instance.scrollToTargets (Instance.update { w with pauseCheck := true })
          Dest.left destY).endX = Val.num 0 ∧
        (Instance.scrollToTargets (Instance.update { w with pauseCheck := true })
          Dest.right destY).endX = Val.num (sW - cW) ∧
        (Instance.scrollToTargets (Instance.update { w with pauseCheck := true })
          (Dest.val (Val.num x)) destY).endX = Val.num x ∧
        (Instance.scrollToTargets (Instance.update { w with pauseCheck := true })
          Dest.no destY).endX = Val.num w.me.scrollEl.scrollLeft ∧
        (Instance.scrollToTargets (Instance.update { w with pauseCheck := true })
          destX Dest.top).endY = Val.num 0 ∧
        (Instance.scrollToTargets (Instance.update { w with pauseCheck := true })
          destX Dest.bottom).endY = Val.num (sH - cH) ∧
        (Instance.scrollToTargets (Instance.update { w with pauseCheck := true })
          destX (Dest.val (Val.num y))).endY = Val.num y ∧
        (Instance.scrollToTargets (Instance.update { w with pauseCheck := true })
          destX Dest.no).endY = Val.num w.me.scrollEl.scrollTop := by
    intro destX destY x y
    simp [Instance.scrollToTargets, hsW, hcW, hsH, hcH, hel, Val.sub, Dest.toNumber, Val.toNumber]
  refine ⟨?_, hgen, htab⟩
  obtain ⟨g1, g2⟩ := hgen Dest.right Dest.no
  obtain ⟨-, t2, -, -, -, -, -, t8⟩ := htab Dest.right Dest.no 0 0
  rw [g1, g2, t2, t8]
  exact ⟨rfl, rfl⟩

theorem scrollTo_zero_duration_witness :
    (Instance.scrollTo (fun x => x) (sampleWorld 1 (sampleEl 30 0) [1]) Dest.right Dest.no
        (Val.num 0) false).me.scrollEl.scrollLeft = 500 - 100 ∧
      (Instance.scrollTo (fun x => x) (sampleWorld 1 (sampleEl 30 0) [1]) Dest.right Dest.no
        (Val.num 0) false).me.scrollEl.scrollTop =
          (sampleWorld 1 (sampleEl 30 0) [1]).me.scrollEl.scrollTop :=
  (scrollTo_zero_duration (fun x => x) (sampleWorld 1 (sampleEl 30 0) [1]) false 500 100 500 100
    (update_cache_sizes _ rfl).2.2.1 (update_cache_sizes _ rfl).2.2.2
    (update_cache_sizes _ rfl).1 (update_cache_sizes _ rfl).2.1).1

/-! ## The registry of live instances -/

lemma indexOf_none (xs : List Nat) (x : Nat) (h : indexOf xs x = none) : xs.erase x = xs := by
  induction xs with
  | nil => rfl
  | cons y ys ih =>
    unfold indexOf at h
    split_ifs at h with hy
    have h2 : indexOf ys x = none := by
      cases hi : indexOf ys x with
      | none => rfl
      | some i => rw [hi] at h; simp at h
    rw [List.erase_cons_tail (by simpa using hy), ih h2]

lemma indexOf_some (xs : List Nat) (x i : Nat) (h : indexOf xs x = some i) :
    xs.eraseIdx i = xs.erase x := by
  induction xs generalizing i with
  | nil => simp [indexOf] at h
  | cons y ys ih =>
    unfold indexOf at h
    split_ifs at h with hy
    · simp only [Option.some.injEq] at h
      subst h; subst hy
      simp
    · cases hi : indexOf ys x with
      | none => rw [hi] at h; simp at h
      | some j =>
        rw [hi] at h
        simp only [Option.map_some', Option.some.injEq] at h
        subst h
        rw [List.eraseIdx_cons_succ, ih j hi, List.erase_cons_tail (by simpa using hy)]

/-- One `destroy()` with no other removal pending: after the next frame the
instance is gone from the registry and the others are kept. -/
lemma destroy_single (w : World) (hf : w.frames = []) :
    (runFrames (Instance.destroy w)).instances = w.instances.erase w.me.id := by
  have h : ({ w with me := { w.me with bound := false } } : World).SameHost
      (Scrollbar.toggle Axis.h false (Scrollbar.toggle Axis.v false
        { w with me := { w.me with bound := false } })) := by
    refine SameHost.trans ?_ (toggle_sameHost Axis.h false _)
    exact toggle_sameHost Axis.v false _
  have hi : (Scrollbar.toggle Axis.h false (Scrollbar.toggle Axis.v false
        { w with me := { w.me with bound := false } })).instances = w.instances := h.2.2.2.2.2.2.2.2.2.2.1
  have hfr : (Scrollbar.toggle Axis.h false (Scrollbar.toggle Axis.v false
        { w with me := { w.me with bound := false } })).frames = [] :=
    h.2.2.2.2.2.2.2.2.2.2.2.2.2.trans hf
  unfold Instance.destroy
  cases hx : indexOf w.instances w.me.id with
  | none =>
    simp only [runFrames, hfr, List.foldl_nil, hi]
    exact (indexOf_none _ _ hx).symm
  | some i =>
    simp only [runFrames, hfr, List.nil_append, List.foldl_cons, List.foldl_nil, runFrame, hi]
    exact indexOf_some _ _ _ hx

/-- C9 fails on the code: with the registry holding instances 1, 2 and 3,
`destroy()` on instance 1 and then on instance 2 before the next frame queues
removals at the indices 0 and 1 found at call time; the first removal shifts
the registry, so the second removes instance 3.  After the frame the registry
still holds the destroyed instance 2 and has lost the live instance 3. -/
theorem destroy_two_stale_index :
    (destroyAll [Instance.fresh 1 defaults (sampleEl 0 0), Instance.fresh 2 defaults (sampleEl 0 0)]
        (sampleWorld 1 (sampleEl 0 0) [1, 2, 3])).frames =
      [Frame.spliceInstance 0, Frame.spliceInstance 1] ∧
    (runFrames (destroyAll
        [Instance.fresh 1 defaults (sampleEl 0 0), Instance.fresh 2 defaults (sampleEl 0 0)]
        (sampleWorld 1 (sampleEl 0 0) [1, 2, 3]))).instances = [2] := by
  constructor <;> rfl

/-! ## Animation frame lemmas -/

lemma easingFunction_eq (t : ℚ) : Utils.easingFunction t = (t - 1) ^ 3 + 1 := by
  unfold Utils.easingFunction
  ring

/-- C13: `animateScroll` with a duration `d > 0` queues one `scrollAnimation`
frame; run at elapsed time `e >= 0`, with `t = min(1, e/d)`, that frame writes
`start + ((t-1)^3 + 1) * (end - start)` to each axis whose end differs from its
start, leaves an axis whose end equals its start unwritten, and queues a
further frame exactly when `t < 1`; and `Utils.easingFunction(t)` is
`(t-1)^3 + 1` for every `t`. -/
theorem animateScroll_frame (pow054 : ℚ → ℚ) (w u : World) (startX endX startY endY d e : ℚ)
    (hd : 0 < d) (_he : 0 ≤ e) (hmove : ¬ (endX = startX ∧ endY = startY))
    (hid : u.me.id = w.me.id) (hnow : u.now = w.now + e) :
    (Instance.animateScroll pow054 w startX (Val.num endX) startY (Val.num endY) (Val.num d)).frames =
        w.frames ++ [Frame.scrollAnimation
          { id := w.me.id, startX := startX, endX := Val.num endX, startY := startY,
            endY := Val.num endY, startTime := w.now, duration := Val.num d }] ∧
      (runFrame u (Frame.scrollAnimation
          { id := w.me.id, startX := startX, endX := Val.num endX, startY := startY,
            endY := Val.num endY, startTime := w.now, duration := Val.num d })).me.scrollEl.scrollLeft =
        (if endX = startX then u.me.scrollEl.scrollLeft
         else startX + ((min 1 (e / d) - 1) ^ 3 + 1) * (endX - startX)) ∧
      (runFrame u (Frame.scrollAnimation
          { id := w.me.id, startX := startX, endX := Val.num endX, startY := startY,
            endY := Val.num endY, startTime := w.now, duration := Val.num d })).me.scrollEl.scrollTop =
        (if endY = startY then u.me.scrollEl.scrollTop
         else startY + ((min 1 (e / d) - 1) ^ 3 + 1) * (endY - startY)) ∧
      (runFrame u (Frame.scrollAnimation
          { id := w.me.id, startX := startX, endX := Val.num endX, startY := startY,
            endY := Val.num endY, startTime := w.now, duration := Val.num d })).frames =
        (if min 1 (e / d) < 1 then
          u.frames ++ [Frame.scrollAnimation
            { id := w.me.id, startX := startX, endX := Val.num endX, startY := startY,
              endY := Val.num endY, startTime := w.now, duration := Val.num d }]
         else u.frames) ∧
      ∀ t : ℚ, Utils.easingFunction t = (t - 1) ^ 3 + 1 := by
  have hel : u.now - w.now = e := by rw [hnow]; ring
  refine ⟨?_, ?_, ?_, ?_, easingFunction_eq⟩
  · unfold Instance.animateScroll
    have h1 : ((Val.num endX).strictEq (Val.num startX) && (Val.num endY).strictEq (Val.num startY))
        = false := by
      simp only [Val.strictEq, Bool.and_eq_false_imp, decide_eq_true_eq, decide_eq_false_iff_not]
      intro hx hy; exact hmove ⟨hx, hy⟩
    have h2 : (Val.num d).strictEq (Val.num 0) = false := by
      simp [Val.strictEq, ne_of_gt hd]
    simp [h1, h2, Val.isNaN]
  all_goals
    simp only [runFrame, hid, if_true, Instance.scrollAnimation, frameTime, easedTime, hel,
      easingFunction_eq, Val.strictNe, Val.strictEq, Val.mul, Val.sub, Val.add, Val.lt, storeOffset]
    by_cases hx : endX = startX <;> by_cases hy : endY = startY <;>
      by_cases ht : min 1 (e / d) < 1 <;> simp [hx, hy, ht] <;> ring

theorem animateScroll_frame_witness :
    (runFrame { sampleCached (sampleEl 0 0) with now := 50 } (Frame.scrollAnimation
        { id := (sampleCached (sampleEl 0 0)).me.id, startX := 0, endX := Val.num 0, startY := 0,
          endY := Val.num 400, startTime := (sampleCached (sampleEl 0 0)).now,
          duration := Val.num 100 })).me.scrollEl.scrollTop =
      (if (400 : ℚ) = 0 then ({ sampleCached (sampleEl 0 0) with now := 50 } : World).me.scrollEl.scrollTop
       else 0 + ((min 1 ((50 : ℚ) / 100) - 1) ^ 3 + 1) * (400 - 0)) :=
  (animateScroll_frame (fun x => x) (sampleCached (sampleEl 0 0))
    { sampleCached (sampleEl 0 0) with now := 50 } 0 0 0 400 100 50 (by norm_num) (by norm_num)
    (by norm_num) rfl (by show (50 : ℚ) = 0 + 50; norm_num)).2.2.1

/-! ## The `sizechange` notification -/

lemma reachName_ne_sizechange (a : Axis) (percent : Val) : reachName a percent ≠ "sizechange" := by
  unfold reachName
  cases percent <;> cases a <;> simp only [evNames] <;> (try split_ifs) <;> decide

lemma fire_sizechangeCount (w : World) (name : String) :
    sizechangeCount (Instance.fireCustomEvent w name) =
      sizechangeCount w + (if name = "sizechange" then 1 else 0) := by
  simp only [sizechangeCount, Instance.fireCustomEvent, List.map_append, List.map_cons,
    List.map_nil, List.count_append, List.count_cons, List.count_nil, Nat.zero_add, beq_iff_eq]

lemma toggle_dispatched (a : Axis) (b : Bool) (w : World) :
    (Scrollbar.toggle a b w).me.dispatched = w.me.dispatched := by
  cases a <;> rfl

lemma checkEdges_false_sizechangeCount (k : ScrollTo) (a : Axis) (w : World) :
    sizechangeCount (Scrollbar.checkEdges k a false w) = sizechangeCount w := by
  unfold Scrollbar.checkEdges
  simp only [Bool.and_false, Bool.false_and, Bool.false_eq_true, if_false, Bool.not_false,
    Bool.and_true]
  split_ifs
  · rfl
  · show sizechangeCount (Instance.fireCustomEvent (Instance.fireCustomEvent w "scrollreachedge")
      (reachName a (w.me.cache.bar a).percent)) = sizechangeCount w
    rw [fire_sizechangeCount, fire_sizechangeCount, if_neg (reachName_ne_sizechange _ _),
      if_neg (by decide), Nat.add_zero]
  · rfl

lemma updateWith_false_sizechangeCount (k : ScrollTo) (a : Axis) (w : World) :
    sizechangeCount (Scrollbar.updateWith k a false w) = sizechangeCount w := by
  unfold Scrollbar.updateWith
  simp only
  rw [checkEdges_false_sizechangeCount]
  simp only [sizechangeCount]
  split_ifs <;> simp only [toggle_dispatched]

lemma strictNe_num_iff (q : ℚ) (v : Val) : (Val.num q).strictNe v = true ↔ v ≠ Val.num q := by
  cases v with
  | undef => simp [Val.strictNe, Val.strictEq]
  | nan => simp [Val.strictNe, Val.strictEq]
  | num r =>
    simp only [Val.strictNe, Val.strictEq, Bool.not_eq_true', decide_eq_false_iff_not, ne_eq,
      Val.num.injEq]
    exact ⟨fun h h2 => h h2.symm, fun h h2 => h h2.symm⟩

lemma sizesChanged_iff (w : World) :
    Instance.sizesChanged w = true ↔
      (w.me.cache.scrollH ≠ Val.num w.me.scrollEl.scrollHeight ∨
        w.me.cache.clientH ≠ Val.num w.me.scrollEl.clientHeight ∨
        w.me.cache.scrollW ≠ Val.num w.me.scrollEl.scrollWidth ∨
        w.me.cache.clientW ≠ Val.num w.me.scrollEl.clientWidth) := by
  simp only [Instance.sizesChanged, Bool.or_eq_true, strictNe_num_iff, or_assoc]

lemma refresh_sizechangeCount (w : World) :
    sizechangeCount (Instance.refresh w) =
      sizechangeCount w + (if w.me.cache.clientH ≠ Val.undef then 1 else 0) := by
  unfold Instance.refresh Instance.invokeUpdate
  simp only
  rw [updateWith_false_sizechangeCount, updateWith_false_sizechangeCount]
  split_ifs
  · rw [fire_sizechangeCount, if_pos rfl]; rfl
  · rfl

lemma populated_iff_clientH (c : Cache) (hinv : c.blank = true ∨ c.populated = true) :
    c.populated = true ↔ c.clientH ≠ Val.undef := by
  constructor
  · intro hp hu
    simp only [Cache.populated, Bool.and_eq_true] at hp
    rw [hu] at hp
    simp [Val.isNum] at hp
  · intro hne
    rcases hinv with hb | hp
    · simp only [Cache.blank, Bool.and_eq_true, decide_eq_true_eq] at hb
      exact absurd hb.1.1.2 hne
    · exact hp

/-- C11: for an instance whose element is attached and whose cache is either
still blank or was populated by an earlier update, `Instance.update()`
dispatches one `sizechange` when at least one of the four freshly read
dimensions differs from the cached one and the cache was populated, and none
otherwise; so the very first update dispatches none, and an update with all
four dimensions unchanged changes nothing at all: it dispatches nothing and
leaves the axis trackers as they were. -/
theorem update_sizechange (w : World) (hatt : w.me.attached = true)
    (hinv : w.me.cache.blank = true ∨ w.me.cache.populated = true) :
    sizechangeCount (Instance.update w) =
        sizechangeCount w +
          (if (w.me.cache.scrollH ≠ Val.num w.me.scrollEl.scrollHeight ∨
                w.me.cache.clientH ≠ Val.num w.me.scrollEl.clientHeight ∨
                w.me.cache.scrollW ≠ Val.num w.me.scrollEl.scrollWidth ∨
                w.me.cache.clientW ≠ Val.num w.me.scrollEl.clientWidth) ∧
              w.me.cache.populated = true then 1 else 0) ∧
      (w.me.cache.blank = true → sizechangeCount (Instance.update w) = sizechangeCount w) ∧
      (w.me.cache.scrollH = Val.num w.me.scrollEl.scrollHeight →
        w.me.cache.clientH = Val.num w.me.scrollEl.clientHeight →
        w.me.cache.scrollW = Val.num w.me.scrollEl.scrollWidth →
        w.me.cache.clientW = Val.num w.me.scrollEl.clientWidth →
        Instance.update w = w) := by
  have hpop := populated_iff_clientH w.me.cache hinv
  have hmain : sizechangeCount (Instance.update w) =
        sizechangeCount w +
          (if (w.me.cache.scrollH ≠ Val.num w.me.scrollEl.scrollHeight ∨
                w.me.cache.clientH ≠ Val.num w.me.scrollEl.clientHeight ∨
                w.me.cache.scrollW ≠ Val.num w.me.scrollEl.scrollWidth ∨
                w.me.cache.clientW ≠ Val.num w.me.scrollEl.clientWidth) ∧
              w.me.cache.populated = true then 1 else 0) := by
    have hd := sizesChanged_iff w
    unfold Instance.update
    by_cases hch : Instance.sizesChanged w = true
    · have hnd : ¬ (w.me.scrollEl.scrollHeight = 0 ∧ w.me.scrollEl.clientHeight = 0 ∧
          w.me.attached = false) := by
        rw [hatt]; simp
      rw [if_pos hch, if_neg hnd, refresh_sizechangeCount]
      by_cases hp : w.me.cache.populated = true
      · rw [if_pos (hpop.1 hp), if_pos ⟨hd.1 hch, hp⟩]
      · rw [if_neg (fun h => hp (hpop.2 h)), if_neg (fun h => hp h.2)]
    · rw [if_neg hch, if_neg (fun h => hch (hd.2 h.1))]; rfl
  refine ⟨hmain, ?_, ?_⟩
  · intro hb
    have hnp : ¬ w.me.cache.populated = true := by
      intro hp
      simp only [Cache.blank, Bool.and_eq_true, decide_eq_true_eq] at hb
      exact (hpop.1 hp) hb.1.1.2
    rw [hmain, if_neg (fun h => hnp h.2)]; rfl
  · intro h1 h2 h3 h4
    have hch : ¬ Instance.sizesChanged w = true := by
      rw [sizesChanged_iff]
      rintro (h | h | h | h)
      · exact h h1
      · exact h h2
      · exact h h3
      · exact h h4
    unfold Instance.update
    rw [if_neg hch]

theorem update_sizechange_witness :
    sizechangeCount (Instance.update (sampleCached (sampleTall 0))) =
      sizechangeCount (sampleCached (sampleTall 0)) +
        (if ((sampleCached (sampleTall 0)).me.cache.scrollH ≠
                Val.num (sampleCached (sampleTall 0)).me.scrollEl.scrollHeight ∨
              (sampleCached (sampleTall 0)).me.cache.clientH ≠
                Val.num (sampleCached (sampleTall 0)).me.scrollEl.clientHeight ∨
              (sampleCached (sampleTall 0)).me.cache.scrollW ≠
                Val.num (sampleCached (sampleTall 0)).me.scrollEl.scrollWidth ∨
              (sampleCached (sampleTall 0)).me.cache.clientW ≠
                Val.num (sampleCached (sampleTall 0)).me.scrollEl.clientWidth) ∧
            (sampleCached (sampleTall 0)).me.cache.populated = true then 1 else 0) :=
  (update_sizechange (sampleCached (sampleTall 0)) rfl (Or.inr rfl)).1

/-- The cache of a freshly created instance is blank. -/
lemma fresh_cache_blank (id : Nat) (settings : Settings) (el : ScrollEl) :
    (Instance.fresh id settings el).cache.blank = true := rfl

/-- The cache stays blank or populated across `update()`. -/
lemma update_cache_blank_or_populated (w : World)
    (hinv : w.me.cache.blank = true ∨ w.me.cache.populated = true) :
    (Instance.update w).me.cache.blank = true ∨ (Instance.update w).me.cache.populated = true := by
  unfold Instance.update
  split_ifs
  · have h : ({ w with me := { w.me with bound := false } } : World).SameHost
        (Scrollbar.toggle Axis.h false (Scrollbar.toggle Axis.v false
          { w with me := { w.me with bound := false } })) := by
      refine SameHost.trans ?_ (toggle_sameHost Axis.h false _)
      exact toggle_sameHost Axis.v false _
    have hc : (Instance.destroy w).me.cache.blank = w.me.cache.blank ∧
        (Instance.destroy w).me.cache.populated = w.me.cache.populated := by
      unfold Instance.destroy
      cases indexOf w.instances w.me.id <;>
        simp only [Cache.blank, Cache.populated, h.2.1, h.2.2.1, h.2.2.2.1, h.2.2.2.2.1] <;>
        exact ⟨trivial, trivial⟩
    rw [hc.1, hc.2]; exact hinv
  · right
    have h := refresh_sameHost w
    simp only [Cache.populated, h.2.1, h.2.2.1, h.2.2.2.1, h.2.2.2.2.1]
    rfl
  · exact hinv

/-! ## The track position read as a scroll position -/

/-- Where the track size is not clamped, `position * scrollSize` is the scroll
offset for every in-range offset. -/
lemma calc_position_unclamped (p c S min max : ℚ) (hc : 0 < c) (hcs : c < S)
    (hmin : min / 100 ≤ c / S) (hmax : c / S ≤ max / 100) (h0 : 0 ≤ p) (h1 : p ≤ S - c) :
    (Scrollbar.calc p c S min max).position * S = p := by
  have hS : 0 < S := lt_trans hc hcs
  have hd : 0 < S - c := by linarith
  rw [calc_scrollable _ _ _ _ _ (ne_of_lt hcs) (ne_of_gt hS)]
  have hpc0 : ¬ (100 * p / (S - c) < 0) := by
    rw [not_lt]; exact div_nonneg (by linarith) (le_of_lt hd)
  have hpc1 : ¬ (100 * p / (S - c) > 100) := by
    rw [gt_iff_lt, not_lt, div_le_iff₀ hd]; nlinarith
  simp only [clampMax, clampMin, overscroll, gt_iff_lt, not_lt.2 hmax, not_lt.2 hmin, if_false]
  rw [if_neg hpc0, if_neg (by simpa using hpc1)]
  field_simp

lemma sampleTall_calc :
    Scrollbar.calc 9900 100 10000 5 95 = { position := 19 / 20, size := 1 / 20, percent := 100 } := by
  rw [calc_scrollable _ _ _ _ _ (by norm_num) (by norm_num)]
  simp only [clampMin, clampMax, overscroll]
  norm_num

lemma sampleTall_updateWith (k : ScrollTo) (p : Bool) :
    Scrollbar.updateWith k Axis.v true (sampleTallWorld 9900 p) =
      (if p then
        { (k { sampleTallWorld 9900 p with
                me := { (sampleTallWorld 9900 p).me with
                  cache := { (sampleTallWorld 9900 p).me.cache with
                    v := { position := Val.num (19 / 20), size := Val.num (1 / 20),
                           percent := Val.num 100, was := Val.undef, enabled := some true } } } }
              Dest.no (Dest.val (Val.num 9499)) (Val.num 0) true) with
          me := { (k { sampleTallWorld 9900 p with
                me := { (sampleTallWorld 9900 p).me with
                  cache := { (sampleTallWorld 9900 p).me.cache with
                    v := { position := Val.num (19 / 20), size := Val.num (1 / 20),
                           percent := Val.num 100, was := Val.undef, enabled := some true } } } }
              Dest.no (Dest.val (Val.num 9499)) (Val.num 0) true).me with
            cache := { (k { sampleTallWorld 9900 p with
                me := { (sampleTallWorld 9900 p).me with
                  cache := { (sampleTallWorld 9900 p).me.cache with
                    v := { position := Val.num (19 / 20), size := Val.num (1 / 20),
                           percent := Val.num 100, was := Val.undef, enabled := some true } } } }
              Dest.no (Dest.val (Val.num 9499)) (Val.num 0) true).me.cache with
              v := { (k { sampleTallWorld 9900 p with
                me := { (sampleTallWorld 9900 p).me with
                  cache := { (sampleTallWorld 9900 p).me.cache with
                    v := { position := Val.num (19 / 20), size := Val.num (1 / 20),
                           percent := Val.num 100, was := Val.undef, enabled := some true } } } }
              Dest.no (Dest.val (Val.num 9499)) (Val.num 0) true).me.cache.v with
                was := Val.num 100 } } } }
       else
        { sampleTallWorld 9900 p with
          me := { (sampleTallWorld 9900 p).me with
            cache := { (sampleTallWorld 9900 p).me.cache with
              v := { position := Val.num (19 / 20), size := Val.num (1 / 20),
                     percent := Val.num 100, was := Val.num 100, enabled := some true } } } }) := by
  have h9499 : (19 / 20 : ℚ) * 10000 - 1 = 9499 := by norm_num
  have hlt : ((1 : ℚ) / 20 < 1) := by norm_num
  have hne : ¬ ((1 : ℚ) / 20 = 1) := by norm_num
  cases p <;>
    simp [Scrollbar.updateWith, Scrollbar.checkEdges, sampleTallWorld, sampleTall, Instance.fresh,
      defaults, Settings.trackMin, Settings.trackMax, ScrollEl.scrollProp, Cache.clientSize,
      Cache.scrollSize, calcV_num, sampleTall_calc, Val.strictEq, Val.lt, Instance.enabled,
      Cache.bar, Cache.setBar, modHundredIsZero_hundred, Val.truthy, Val.mul, Val.sub, h9499,
      ScrollbarCache.empty, hlt, hne]

/-- C12 fails on the code: with content 10000 high in a viewport 100 high, the
default track sizes and `preventParentScroll` set, `Scrollbar.update(true)` at
the trailing edge (offset 9900, percent 100) calls `scrollTo(false, 9499, 0,
true)` and nothing else, so the element is re-seated at 9499, 401 units inside
the edge, where one unit inside is `(10000 - 100) - 1 = 9899`: the minimum
track size has clamped `size` to 0.05, and `position * scrollSize` is
`0.95 * 10000`. -/
theorem touch_fix_at_clamped_track :
    (∀ k j : ScrollTo,
      (∀ w : World, k w Dest.no (Dest.val (Val.num 9499)) (Val.num 0) true =
        j w Dest.no (Dest.val (Val.num 9499)) (Val.num 0) true) →
      Scrollbar.updateWith k Axis.v true (sampleTallWorld 9900 true) =
        Scrollbar.updateWith j Axis.v true (sampleTallWorld 9900 true)) ∧
    (sampleTallWorld 9900 true).me.scrollEl.scrollTop = 10000 - 100 ∧
    (sampleTallWorld 9900 true).me.enabled Axis.v = true ∧
    (Scrollbar.update (fun x => x) Axis.v true (sampleTallWorld 9900 true)).me.scrollEl.scrollTop =
      9499 := by
  refine ⟨?_, ?_, rfl, ?_⟩
  · intro k j h
    rw [sampleTall_updateWith k true, sampleTall_updateWith j true]
    simp only [if_true, h]
  · show (9900 : ℚ) = 10000 - 100
    norm_num
  · unfold Scrollbar.update
    rw [sampleTall_updateWith _ true]
    simp [Instance.scrollTo, Instance.update, Instance.sizesChanged, Instance.scrollToTargets,
      Instance.animateScroll, Dest.toNumber, Val.toNumber, storeOffset, Val.strictNe, Val.strictEq,
      sampleTallWorld, sampleTall, Instance.fresh]

/-- C14 fails on the code: with content 10000 high in a viewport 100 high and
the default track sizes, after `Scrollbar.update` at the in-range offset 9900
the payload of `Utils.exposedData` reports `scrollTop` 9500, and so do the two
edge notifications that update dispatches, while the element's scroll offset
is 9900: the minimum track size has clamped `size` to 0.05 and moved
`position` to 0.95. -/
theorem exposed_scrollTop_at_clamped_track :
    (0 ≤ (sampleTallWorld 9900 false).me.scrollEl.scrollTop ∧
      (sampleTallWorld 9900 false).me.scrollEl.scrollTop ≤ 10000 - 100) ∧
    (Scrollbar.update (fun x => x) Axis.v false
        (sampleTallWorld 9900 false)).me.scrollEl.scrollTop = 9900 ∧
    (Utils.exposedData (Scrollbar.update (fun x => x) Axis.v false
        (sampleTallWorld 9900 false)).me.cache).scrollTop = Val.num 9500 ∧
    (Scrollbar.update (fun x => x) Axis.v false
        (sampleTallWorld 9900 false)).me.dispatched.map (fun e => (e.name, e.detail.scrollTop)) =
      [("scrollreachedge", Val.num 9500), ("scrollreachbottom", Val.num 9500)] := by
  have h9500 : (19 / 20 : ℚ) * 10000 = 9500 := by norm_num
  have hlt : ((1 : ℚ) / 20 < 1) := by norm_num
  have hne : ¬ ((1 : ℚ) / 20 = 1) := by norm_num
  refine ⟨⟨?_, ?_⟩, ?_, ?_, ?_⟩
  · show (0 : ℚ) ≤ 9900
    norm_num
  · show (9900 : ℚ) ≤ 10000 - 100
    norm_num
  all_goals
    simp [Scrollbar.update, Scrollbar.updateWith, Scrollbar.checkEdges, sampleTallWorld, sampleTall,
      Instance.fresh, defaults, Settings.trackMin, Settings.trackMax, ScrollEl.scrollProp,
      Cache.clientSize, Cache.scrollSize, calcV_num, sampleTall_calc, Val.strictEq, Val.strictNe,
      Val.lt, Instance.enabled, Cache.bar, Cache.setBar, modHundredIsZero_hundred,
      reachName_hundred, evNames, Instance.fireCustomEvent, Utils.exposedData, Val.mul, h9500,
      ScrollbarCache.empty, hlt, hne]

end Optiscroll
